import Mathlib

/-!
# Gallio.BoostAdapter.Native — `BoostTestBridge.cpp`

A shallow embedding of the native bridge between a host process and a
Boost.Test module: the module loader (`FindInitFunc`), the tree walker
(`TestsVisitor`), the execution observer (`TestObserver`), the cleanup helper
(`CleanUp`) and the two exported entry points (`BoostTestExplore`,
`BoostTestRun`).

The C++ code is stateful and uses exceptions.  It is embedded as functions in
the monad `M`, a state-and-exception monad over a `World` that keeps

* the entry point's local variable `h` (it is passed by reference to
  `FindInitFunc` and read again in the `catch` handlers),
* the observer registered with the framework, and
* a log (`trace`) of every externally visible action, in the order in which
  it happened: host callback invocations with their return value, calls to
  the OS loader and calls into the framework.

Everything the bridge does not own (the OS loader, the Boost.Test framework
and the module under test) is a parameter, `Env`.  Host callbacks are
arbitrary functions of the history of the call and of their arguments; they
return a `bool` and are taken not to throw.

A narrow string (`std::string`) is a `String` whose characters stand for the
`char` values `0 .. 255`; a wide string (`std::wstring`) is a `String` whose
characters stand for 16-bit `wchar_t` values.  `ToWide` converts the one into
the other character by character, as the source does.  Names hold no NUL
character (the framework builds them from C strings), so `c_str()` hands a
callback the whole string.  The `unsigned long` count and elapsed time go
from the framework to the host at the same width and are natural numbers
here.  A null pointer or handle is `0`; the nullable `shouldSkipVisitor` is
an `Option`.
-/

namespace BoostTestBridge

/-! ## Data model -/

/-- A module handle, as returned by `LoadLibrary`; `0` is `NULL`. -/
abbrev HMODULE := Nat

/-- The address of the module's `init_unit_test` function; `0` is `NULL`. -/
abbrev InitFunc := Nat

/-- The node-kind tag of the framework (`boost::unit_test::test_unit_type`). -/
inductive test_unit_type where
  | tut_case
  | tut_suite
  | tut_any
deriving DecidableEq, Repr

/-- A node of the framework's test tree: a case (leaf) or a suite with its
members in declared order. -/
inductive test_unit where
  | test_case (p_name : String)
  | test_suite (p_name : String) (m_members : List test_unit)

/-- The name property `p_name` of a test unit. -/
def test_unit.p_name : test_unit → String
  | .test_case n => n
  | .test_suite n _ => n

/-- The kind property `p_type` of a test unit. -/
def test_unit.p_type : test_unit → test_unit_type
  | .test_case _ => .tut_case
  | .test_suite _ _ => .tut_suite

/-- The failure description carried by `boost::execution_exception`. -/
structure execution_exception where
  what : String
deriving DecidableEq

/-- What the framework (or the module's code running under it) can throw,
classified the way the `catch` clauses of the entry points classify it. -/
inductive FrameworkExc where
  | std_exception (what : String)
  | execution_exception (ex : execution_exception)
  | unknown
deriving DecidableEq

/-- Everything that can be thrown inside an entry point: the bridge's own
`execution_cancelled`, or something thrown by the framework. -/
inductive Exc where
  | execution_cancelled
  | framework (e : FrameworkExc)
deriving DecidableEq

/-- One invocation of a host callback, named after the parameter of the
entry point through which the callback was supplied, with its arguments. -/
inductive Call where
  | testCaseVisitor (name : String)
  | beginTestSuiteVisitor (name : String)
  | endTestSuiteVisitor (name : String)
  | shouldSkipVisitor (name : String)
  | testStart (count : Nat)
  | testFinish
  | testAborted
  | testUnitStart (name : String) (suite : Bool)
  | testUnitFinish (name : String) (suite : Bool) (elapsed : Nat)
  | testUnitSkipped (name : String) (suite : Bool)
  | testUnitAborted (name : String) (suite : Bool)
  | assertionResult (passed : Bool)
  | exceptionCaught (name : String)
  | errorReporter (text : String)
deriving DecidableEq

/-- An externally visible action of one entry-point call. -/
inductive Event where
  | call (c : Call) (ret : Bool)
  | LoadLibrary (fileName : String) (h : HMODULE)
  | FreeLibrary (h : HMODULE)
  | framework_init (initFunc : InitFunc)
  | framework_clear
  | register_observer
  | framework_run
  | p_enabled_set (name : String) (value : Bool)
deriving DecidableEq

/-- A host callback taking an argument of type `α`.  Its answer may depend on
everything that happened in the call so far. -/
abbrev Callback (α : Type) := List Event → α → Bool

/-- The type `bool (__stdcall *Visitor)(const wchar_t *name)`. -/
abbrev Visitor := Callback String
/-- The type `bool (__stdcall *TestEventHandler)()`. -/
abbrev TestEventHandler := Callback Unit
/-- The type `bool (__stdcall *TestStartEventHandler)(unsigned long count)`. -/
abbrev TestStartEventHandler := Callback Nat
/-- The type `bool (__stdcall *TestUnitEventHandler)(const wchar_t *name, bool suite)`. -/
abbrev TestUnitEventHandler := Callback (String × Bool)
/-- The type `bool (__stdcall *TestUnitFinishedEventHandler)(name, suite, elapsed)`. -/
abbrev TestUnitFinishedEventHandler := Callback (String × Bool × Nat)
/-- The type `bool (__stdcall *AssertionResultEventHandler)(bool passed)`. -/
abbrev AssertionResultEventHandler := Callback Bool
/-- The type `bool (__stdcall *ExceptionCaughtEventHandler)(const wchar_t *name)`. -/
abbrev ExceptionCaughtEventHandler := Callback String
/-- The type `bool (__stdcall *ErrorReporter)(const wchar_t *text)`. -/
abbrev ErrorReporter := Callback String

/-- The fields of `class TestsVisitor`; `shouldSkipVisitor_` may be `NULL`. -/
structure TestsVisitor where
  testCaseVisitor_ : Visitor
  beginTestSuiteVisitor_ : Visitor
  endTestSuiteVisitor_ : Visitor
  shouldSkipVisitor_ : Option Visitor

/-- The fields of `class TestObserver`. -/
structure TestObserver where
  testStart_ : TestStartEventHandler
  testFinish_ : TestEventHandler
  testAborted_ : TestEventHandler
  testUnitStart_ : TestUnitEventHandler
  testUnitFinish_ : TestUnitFinishedEventHandler
  testUnitSkipped_ : TestUnitEventHandler
  testUnitAborted_ : TestUnitEventHandler
  assertionResult_ : AssertionResultEventHandler
  exceptionCaught_ : ExceptionCaughtEventHandler
  errorReporter_ : ErrorReporter

/-- A run-lifecycle event that the framework delivers to a registered
`boost::unit_test::test_observer`. -/
inductive ObserverEvent where
  | test_start (testCasesCount : Nat)
  | test_finish
  | test_aborted
  | test_unit_start (tu : test_unit)
  | test_unit_finish (tu : test_unit) (elapsed : Nat)
  | test_unit_skipped (tu : test_unit)
  | test_unit_aborted (tu : test_unit)
  | assertion_result (passed : Bool)
  | exception_caught (ex : execution_exception)

/-- What `framework::run()` does, seen from the observer: it returns, or it
throws, or it delivers one event and goes on. -/
inductive RunScript where
  | finish
  | raise (e : FrameworkExc)
  | notify (ev : ObserverEvent) (next : RunScript)

/-- The collaborators of one entry-point call: the OS loader, the module and
the framework.  Failures of the framework may depend on the history of the
call. -/
structure Env where
  /-- The handle `LoadLibrary` returns for a path; `0` when the load fails. -/
  LoadLibrary : String → HMODULE
  /-- The buffer `FormatMessage` allocates for `GetLastError()`, if any. -/
  FormatMessage : Option String
  /-- The address `GetProcAddress` returns for a symbol; `0` when absent. -/
  GetProcAddress : HMODULE → String → InitFunc
  /-- What `framework::init` throws, if it throws. -/
  init : InitFunc → Option FrameworkExc
  /-- The tree `framework::master_test_suite()` holds after `init`. -/
  master_test_suite : test_unit
  /-- What the framework throws at a step of `traverse_test_tree`, if it
  throws there. -/
  traverse_fault : List Event → Option FrameworkExc
  /-- The behaviour of `framework::run()`. -/
  run : RunScript
  /-- What `framework::clear()` throws, if it throws. -/
  clear : List Event → Option FrameworkExc

/-- The state threaded through an entry-point call. -/
structure World where
  h : HMODULE
  observer : Option TestObserver
  trace : List Event

/-- The state in which an entry point is entered. -/
def World.initial : World := ⟨0, none, []⟩

/-! ## The monad of the embedding -/

/-- A computation that reads and updates the `World` and either returns a
value or throws. -/
def M (α : Type) : Type := World → Except Exc α × World

/-- Sequencing: an exception of the first computation skips the second. -/
def M.bind {α β : Type} (m : M α) (f : α → M β) : M β := fun w =>
  match m w with
  | (.ok a, w1) => f a w1
  | (.error e, w1) => (.error e, w1)

/-- Returning a value changes nothing. -/
def M.pure {α : Type} (a : α) : M α := fun w => (.ok a, w)

instance : Monad M where
  pure := M.pure
  bind := M.bind

/-- Append an action to the log. -/
def emit (e : Event) : M Unit := fun w =>
  (.ok (), { w with trace := w.trace ++ [e] })

/-- The C++ `throw`. -/
def throwExc {α : Type} (e : Exc) : M α := fun w => (.error e, w)

/-- Invoke a host callback: its answer is computed from the history and the
invocation is logged together with the answer. -/
def invoke (c : Call) (answer : List Event → Bool) : M Bool := fun w =>
  (.ok (answer w.trace), { w with trace := w.trace ++ [.call c (answer w.trace)] })

/-- Read the entry point's local `h`. -/
def getH : M HMODULE := fun w => (.ok w.h, w)

/-- Assign the entry point's local `h`. -/
def setH (h : HMODULE) : M Unit := fun w => (.ok (), { w with h := h })

/-- The block `try { body } catch (const execution_cancelled&) { }`. -/
def catchCancelled (body : M Unit) : M Unit := fun w =>
  match body w with
  | (.error .execution_cancelled, w1) => (.ok (), w1)
  | r => r

/-- The block `try { body } catch (...) { }`. -/
def catchAll (body : M Unit) : M Unit := fun w =>
  match body w with
  | (.error _, w1) => (.ok (), w1)
  | r => r

/-- The block `try { body } catch (e) { handler e }` with handlers for every
exception. -/
def tryCatch (body : M Unit) (handler : Exc → M Unit) : M Unit := fun w =>
  match body w with
  | (.error e, w1) => handler e w1
  | r => r

/-! ## The framework and the OS loader -/

/-- The Win32 call `LoadLibrary(fileName)`. -/
def LoadLibrary (env : Env) (fileName : String) : M HMODULE := fun w =>
  (.ok (env.LoadLibrary fileName),
    { w with trace := w.trace ++ [.LoadLibrary fileName (env.LoadLibrary fileName)] })

/-- The Win32 call `FreeLibrary(h)`. -/
def FreeLibrary (h : HMODULE) : M Unit := emit (.FreeLibrary h)

/-- The call `boost::unit_test::framework::init(initFunc, 0, &argv)`. -/
def framework_init (env : Env) (initFunc : InitFunc) : M Unit := fun w =>
  match env.init initFunc with
  | some e => (.error (.framework e), { w with trace := w.trace ++ [.framework_init initFunc] })
  | none => (.ok (), { w with trace := w.trace ++ [.framework_init initFunc] })

/-- The call `boost::unit_test::framework::clear()`. -/
def framework_clear (env : Env) : M Unit := fun w =>
  match env.clear w.trace with
  | some e => (.error (.framework e), { w with trace := w.trace ++ [.framework_clear] })
  | none => (.ok (), { w with trace := w.trace ++ [.framework_clear] })

/-- The call `boost::unit_test::framework::register_observer(observer)`. -/
def register_observer (observer : TestObserver) : M Unit := fun w =>
  (.ok (), { w with observer := some observer, trace := w.trace ++ [.register_observer] })

/-- A step of the framework's own code inside `traverse_test_tree`: it may
throw. -/
def framework_step (env : Env) : M Unit := fun w =>
  match env.traverse_fault w.trace with
  | some e => (.error (.framework e), w)
  | none => (.ok (), w)

/-! ## `BoostTestBridge.cpp` -/

/-- The function `GetErrorString`: the text `FormatMessage` produced, or the
empty string when it produced none. -/
def GetErrorString (env : Env) : String :=
  match env.FormatMessage with
  | some msg => msg
  | none => ""

/-- The conversion of one `char` to `wchar_t` that `ToWide` performs.  On the
platform of this code (`windows.h`) `char` is signed and 8 bits wide and
`wchar_t` is 16 bits wide: a value below `0x80` is kept, a value from `0x80`
on is sign-extended (`0xE9` becomes `0xFFE9`). -/
def widen (c : Char) : Char :=
  Char.ofNat (if c.toNat % 256 < 128 then c.toNat % 256 else c.toNat % 256 + 65280)

/-- The function `ToWide`: `std::wstring(str.begin(), str.end())`, which
converts every `char` of the string to a `wchar_t`. -/
def ToWide (str : String) : String := String.mk (str.data.map widen)

/-- The function `GetWhat`. -/
def GetWhat (ex : execution_exception) : String :=
  if !ex.what.isEmpty then
    String.mk ex.what.data
  else
    "empty error string"

/-- The function `CleanUp`. -/
def CleanUp (env : Env) (h : HMODULE) : M Unit := do
  catchAll (framework_clear env)
  if h ≠ 0 then FreeLibrary h else pure ()

/-- The name looked up by `FindInitFunc`. -/
def initFuncName : String := "init_unit_test"

/-- The function `FindInitFunc`; the reference parameter `h` is the field `h`
of the world. -/
def FindInitFunc (env : Env) (fileName : String) (errorReporter : ErrorReporter) :
    M InitFunc := do
  let h ← LoadLibrary env fileName
  setH h
  if h = 0 then do
    let text := "Failed to load DLL " ++ fileName ++ ": " ++ GetErrorString env
    let _ ← invoke (.errorReporter text) (fun t => errorReporter t text)
    pure 0
  else do
    let initFunc := env.GetProcAddress h initFuncName
    if initFunc = 0 then do
      FreeLibrary h
      setH 0
      pure initFunc
    else
      pure initFunc

/-- The method `TestsVisitor::visit`. -/
def TestsVisitor.visit (V : TestsVisitor) (tc : test_unit) : M Unit := do
  let name := ToWide tc.p_name
  let r ← invoke (.testCaseVisitor name) (fun t => V.testCaseVisitor_ t name)
  if !r then throwExc .execution_cancelled
  else
    match V.shouldSkipVisitor_ with
    | none => pure ()
    | some shouldSkipVisitor => do
      let skip ← invoke (.shouldSkipVisitor name) (fun t => shouldSkipVisitor t name)
      if skip then emit (.p_enabled_set tc.p_name false) else pure ()

/-- The method `TestsVisitor::test_suite_start`. -/
def TestsVisitor.test_suite_start (V : TestsVisitor) (ts : test_unit) : M Bool := do
  let name := ToWide ts.p_name
  let r ← invoke (.beginTestSuiteVisitor name) (fun t => V.beginTestSuiteVisitor_ t name)
  if !r then throwExc .execution_cancelled
  else
    match V.shouldSkipVisitor_ with
    | none => pure true
    | some shouldSkipVisitor => do
      let skip ← invoke (.shouldSkipVisitor name) (fun t => shouldSkipVisitor t name)
      if skip then do
        emit (.p_enabled_set ts.p_name false)
        pure true
      else pure true

/-- The method `TestsVisitor::test_suite_finish`. -/
def TestsVisitor.test_suite_finish (V : TestsVisitor) (ts : test_unit) : M Unit := do
  let name := ToWide ts.p_name
  let r ← invoke (.endTestSuiteVisitor name) (fun t => V.endTestSuiteVisitor_ t name)
  if !r then throwExc .execution_cancelled else pure ()

mutual
/-- Modelled from the spec: the framework routine `traverse_test_tree`, which
is not part of the repository.  It walks the tree depth first: for a suite it
calls `test_suite_start`, then (when that returned true) walks the members in
declared order and calls `test_suite_finish`; for a case it calls `visit`.
An exception thrown by the visitor passes through it unchanged.  A unit that
the visitor marks disabled during the walk is still walked, with its members.
The framework itself may throw before each of its calls to the visitor. -/
def traverse_test_tree (env : Env) (V : TestsVisitor) : test_unit → M Unit
  | .test_case n => do
    framework_step env
    V.visit (.test_case n)
  | .test_suite n ms => do
    framework_step env
    let descend ← V.test_suite_start (.test_suite n ms)
    if descend then do
      traverse_members env V ms
      framework_step env
      V.test_suite_finish (.test_suite n ms)
    else pure ()
/-- The members of a suite, walked in declared order. -/
def traverse_members (env : Env) (V : TestsVisitor) : List test_unit → M Unit
  | [] => pure ()
  | tu :: rest => do
    traverse_test_tree env V tu
    traverse_members env V rest
end

/-- The text reported for an exception caught by an entry point, one case per
`catch` clause. -/
def errorText : Exc → String
  | .framework (.std_exception what) => ToWide ("Boost.Test error: " ++ what)
  | .framework (.execution_exception ex) => ToWide ("Boost.Test error: " ++ GetWhat ex)
  | _ => "Boost.Test framework internal error: unknown reason"

/-- The three `catch` clauses that close both entry points: report, then
`CleanUp(h)`. -/
def reportAndCleanUp (env : Env) (errorReporter : ErrorReporter) (e : Exc) : M Unit := do
  let _ ← invoke (.errorReporter (errorText e)) (fun t => errorReporter t (errorText e))
  CleanUp env (← getH)

/-- The exported function `BoostTestExplore`. -/
def BoostTestExplore (env : Env) (fileName : String)
    (testCaseVisitor beginTestSuiteVisitor endTestSuiteVisitor : Visitor)
    (errorReporter : ErrorReporter) : M Unit := do
  setH 0
  tryCatch
    (do
      let initFunc ← FindInitFunc env fileName errorReporter
      if initFunc = 0 then pure ()
      else do
        framework_init env initFunc
        let visitor : TestsVisitor :=
          ⟨testCaseVisitor, beginTestSuiteVisitor, endTestSuiteVisitor, none⟩
        catchCancelled (traverse_test_tree env visitor env.master_test_suite)
        framework_clear env
        FreeLibrary (← getH))
    (reportAndCleanUp env errorReporter)

/-- The method `TestObserver::test_start`. -/
def TestObserver.test_start (o : TestObserver) (testCasesCount : Nat) : M Unit := do
  let r ← invoke (.testStart testCasesCount) (fun t => o.testStart_ t testCasesCount)
  if !r then throwExc .execution_cancelled else pure ()

/-- The method `TestObserver::test_finish`. -/
def TestObserver.test_finish (o : TestObserver) : M Unit := do
  let r ← invoke .testFinish (fun t => o.testFinish_ t ())
  if !r then throwExc .execution_cancelled else pure ()

/-- The method `TestObserver::test_aborted`. -/
def TestObserver.test_aborted (o : TestObserver) : M Unit := do
  let r ← invoke .testAborted (fun t => o.testAborted_ t ())
  if !r then throwExc .execution_cancelled else pure ()

/-- The method `TestObserver::test_unit_start`. -/
def TestObserver.test_unit_start (o : TestObserver) (tu : test_unit) : M Unit := do
  let name := ToWide tu.p_name
  let suite := decide (tu.p_type = .tut_suite)
  let r ← invoke (.testUnitStart name suite) (fun t => o.testUnitStart_ t (name, suite))
  if !r then throwExc .execution_cancelled else pure ()

/-- The method `TestObserver::test_unit_finish`. -/
def TestObserver.test_unit_finish (o : TestObserver) (tu : test_unit) (elapsed : Nat) :
    M Unit := do
  let name := ToWide tu.p_name
  let suite := decide (tu.p_type = .tut_suite)
  let r ← invoke (.testUnitFinish name suite elapsed)
    (fun t => o.testUnitFinish_ t (name, suite, elapsed))
  if !r then throwExc .execution_cancelled else pure ()

/-- The method `TestObserver::test_unit_skipped`. -/
def TestObserver.test_unit_skipped (o : TestObserver) (tu : test_unit) : M Unit := do
  let name := ToWide tu.p_name
  let suite := decide (tu.p_type = .tut_suite)
  let r ← invoke (.testUnitSkipped name suite) (fun t => o.testUnitSkipped_ t (name, suite))
  if !r then throwExc .execution_cancelled else pure ()

/-- The method `TestObserver::test_unit_aborted`. -/
def TestObserver.test_unit_aborted (o : TestObserver) (tu : test_unit) : M Unit := do
  let name := ToWide tu.p_name
  let suite := decide (tu.p_type = .tut_suite)
  let r ← invoke (.testUnitAborted name suite) (fun t => o.testUnitAborted_ t (name, suite))
  if !r then throwExc .execution_cancelled else pure ()

/-- The method `TestObserver::assertion_result`. -/
def TestObserver.assertion_result (o : TestObserver) (passed : Bool) : M Unit := do
  let r ← invoke (.assertionResult passed) (fun t => o.assertionResult_ t passed)
  if !r then throwExc .execution_cancelled else pure ()

/-- The method `TestObserver::exception_caught`. -/
def TestObserver.exception_caught (o : TestObserver) (ex : execution_exception) :
    M Unit := do
  let str := String.mk ex.what.data
  let r ← invoke (.exceptionCaught (ToWide str)) (fun t => o.exceptionCaught_ t (ToWide str))
  if !r then throwExc .execution_cancelled else pure ()

/-- The virtual dispatch of a run-lifecycle event to the observer's method. -/
def TestObserver.deliver (o : TestObserver) : ObserverEvent → M Unit
  | .test_start testCasesCount => o.test_start testCasesCount
  | .test_finish => o.test_finish
  | .test_aborted => o.test_aborted
  | .test_unit_start tu => o.test_unit_start tu
  | .test_unit_finish tu elapsed => o.test_unit_finish tu elapsed
  | .test_unit_skipped tu => o.test_unit_skipped tu
  | .test_unit_aborted tu => o.test_unit_aborted tu
  | .assertion_result passed => o.assertion_result passed
  | .exception_caught ex => o.exception_caught ex

/-- The framework plays a script against the registered observer.  An
exception thrown by the observer passes through the framework unchanged. -/
def run_script (observer : Option TestObserver) : RunScript → M Unit
  | .finish => pure ()
  | .raise e => throwExc (.framework e)
  | .notify ev next => do
    match observer with
    | some o => o.deliver ev
    | none => pure ()
    run_script observer next

/-- Modelled from the spec: the framework routine `framework::run()`, which is
not part of the repository.  It delivers run-lifecycle events to the
registered observer, one after the other, and may throw at any point. -/
def framework_run (env : Env) : M Unit := fun w =>
  run_script w.observer env.run { w with trace := w.trace ++ [.framework_run] }

/-- The exported function `BoostTestRun`. -/
def BoostTestRun (env : Env) (fileName : String)
    (testCaseVisitor beginTestSuiteVisitor endTestSuiteVisitor : Visitor)
    (shouldSkipVisitor : Option Visitor)
    (testStart : TestStartEventHandler)
    (testFinish testAborted : TestEventHandler)
    (testUnitStart : TestUnitEventHandler)
    (testUnitFinish : TestUnitFinishedEventHandler)
    (testUnitSkipped testUnitAborted : TestUnitEventHandler)
    (assertionResult : AssertionResultEventHandler)
    (exceptionCaught : ExceptionCaughtEventHandler)
    (errorReporter : ErrorReporter) : M Unit := do
  setH 0
  tryCatch
    (do
      let initFunc ← FindInitFunc env fileName errorReporter
      if initFunc = 0 then pure ()
      else do
        framework_init env initFunc
        let visitor : TestsVisitor :=
          ⟨testCaseVisitor, beginTestSuiteVisitor, endTestSuiteVisitor, shouldSkipVisitor⟩
        catchCancelled
          (do
            traverse_test_tree env visitor env.master_test_suite
            let observer : TestObserver :=
              ⟨testStart, testFinish, testAborted, testUnitStart, testUnitFinish,
                testUnitSkipped, testUnitAborted, assertionResult, exceptionCaught,
                errorReporter⟩
            register_observer observer
            framework_run env)
        framework_clear env
        FreeLibrary (← getH))
    (reportAndCleanUp env errorReporter)

/-! ## Classification of the log -/

/-- The three discovery callbacks whose answer `false` cancels the walk. -/
def Call.isWalkCallback : Call → Bool
  | .testCaseVisitor _ => true
  | .beginTestSuiteVisitor _ => true
  | .endTestSuiteVisitor _ => true
  | _ => false

/-- The four discovery callbacks: visit-case, enter-suite, exit-suite and
should-skip. -/
def Call.isDiscovery : Call → Bool
  | .testCaseVisitor _ => true
  | .beginTestSuiteVisitor _ => true
  | .endTestSuiteVisitor _ => true
  | .shouldSkipVisitor _ => true
  | _ => false

/-- The nine run-phase callbacks. -/
def Call.isRun : Call → Bool
  | .testStart _ => true
  | .testFinish => true
  | .testAborted => true
  | .testUnitStart _ _ => true
  | .testUnitFinish _ _ _ => true
  | .testUnitSkipped _ _ => true
  | .testUnitAborted _ _ => true
  | .assertionResult _ => true
  | .exceptionCaught _ => true
  | _ => false

/-- A discovery callback (visit-case, enter-suite or exit-suite) returned
false. -/
def Event.isCancel : Event → Bool
  | .call c ret => c.isWalkCallback && !ret
  | _ => false

/-- A discovery callback was invoked. -/
def Event.isDiscoveryCall : Event → Bool
  | .call c _ => c.isDiscovery
  | _ => false

/-- A run-phase callback was invoked. -/
def Event.isRunCall : Event → Bool
  | .call c _ => c.isRun
  | _ => false

/-- The error reporter was invoked. -/
def Event.isErrorReport : Event → Bool
  | .call (.errorReporter _) _ => true
  | _ => false

/-- A module handle was released. -/
def Event.isFree : Event → Bool
  | .FreeLibrary _ => true
  | _ => false

/-- An event of an undisturbed tree walk: a discovery callback that did not
cancel, or a unit marked disabled. -/
def Event.walkGood : Event → Bool
  | .call c r => (c.isWalkCallback && r) || (c.isDiscovery && !c.isWalkCallback)
  | .p_enabled_set _ _ => true
  | _ => false

/-- An event of an undisturbed run: a run-phase callback that returned true. -/
def Event.runGood : Event → Bool
  | .call c r => c.isRun && r
  | _ => false

/-- A run-phase callback returned false. -/
def Event.runStop : Event → Bool
  | .call c ret => c.isRun && !ret
  | _ => false

/-- The exception a computation ended with, if any. -/
def excOf {α : Type} : Except Exc α → Option Exc
  | .ok _ => none
  | .error e => some e

/-- The events a phase added to the log, against the way the phase ended:
when it was cancelled, the callback that returned false is the last event
and everything before it is undisturbed; otherwise everything is. -/
def Outcome (good stop : Event → Bool) (r : Option Exc) (evs : List Event) : Prop :=
  match r with
  | some .execution_cancelled =>
    ∃ pre last, evs = pre ++ [last] ∧ (∀ e ∈ pre, good e = true) ∧ stop last = true
  | _ => ∀ e ∈ evs, good e = true

/-- A computation that leaves `h` alone and whose additions
to the log satisfy `Outcome`. -/
def Sat {α : Type} (good stop : Event → Bool) (m : M α) : Prop :=
  ∀ w, (m w).2.h = w.h ∧
    ∃ evs, (m w).2.trace = w.trace ++ evs ∧ Outcome good stop (excOf (m w).1) evs

/-! ## The observer seen from the host, and the skeleton of the entry points -/

/-- A unit is a suite exactly when its kind tag is `tut_suite`. -/
def test_unit.isSuite : test_unit → Bool
  | .test_case _ => false
  | .test_suite _ _ => true

/-- The host callback that corresponds to a run-lifecycle event, with the
arguments the observer hands it: the unit's name converted by `ToWide`,
whether the unit is a suite, the count, the flag and the duration supplied
by the framework, and the description converted by `ToWide`. -/
def hostCallFor : ObserverEvent → Call
  | .test_start testCasesCount => .testStart testCasesCount
  | .test_finish => .testFinish
  | .test_aborted => .testAborted
  | .test_unit_start tu => .testUnitStart (ToWide tu.p_name) tu.isSuite
  | .test_unit_finish tu elapsed => .testUnitFinish (ToWide tu.p_name) tu.isSuite elapsed
  | .test_unit_skipped tu => .testUnitSkipped (ToWide tu.p_name) tu.isSuite
  | .test_unit_aborted tu => .testUnitAborted (ToWide tu.p_name) tu.isSuite
  | .assertion_result passed => .assertionResult passed
  | .exception_caught ex => .exceptionCaught (ToWide ex.what)

/-- The answer of the host function supplied for the callback that
corresponds to a run-lifecycle event, at a given history. -/
def TestObserver.answer (o : TestObserver) (t : List Event) : ObserverEvent → Bool
  | .test_start testCasesCount => o.testStart_ t testCasesCount
  | .test_finish => o.testFinish_ t ()
  | .test_aborted => o.testAborted_ t ()
  | .test_unit_start tu => o.testUnitStart_ t (ToWide tu.p_name, tu.isSuite)
  | .test_unit_finish tu elapsed =>
    o.testUnitFinish_ t (ToWide tu.p_name, tu.isSuite, elapsed)
  | .test_unit_skipped tu => o.testUnitSkipped_ t (ToWide tu.p_name, tu.isSuite)
  | .test_unit_aborted tu => o.testUnitAborted_ t (ToWide tu.p_name, tu.isSuite)
  | .assertion_result passed => o.assertionResult_ t passed
  | .exception_caught ex => o.exceptionCaught_ t (ToWide ex.what)

/-- An event of an undisturbed body of an entry point: of the walk, of the
run, or one of the two framework calls that start the run. -/
def Event.bodyGood : Event → Bool
  | .register_observer => true
  | .framework_run => true
  | e => e.walkGood || e.runGood

/-- A callback of the walk or of the run returned false. -/
def Event.bodyStop (e : Event) : Bool := e.isCancel || e.runStop

/-- The common skeleton of `BoostTestExplore` and `BoostTestRun`; `body` is
what the inner `try` block holds. -/
def entryPoint (env : Env) (fileName : String) (errorReporter : ErrorReporter)
    (body : M Unit) : M Unit := do
  setH 0
  tryCatch
    (do
      let initFunc ← FindInitFunc env fileName errorReporter
      if initFunc = 0 then pure ()
      else do
        framework_init env initFunc
        catchCancelled body
        framework_clear env
        FreeLibrary (← getH))
    (reportAndCleanUp env errorReporter)

/-- The body of the inner `try` block of `BoostTestRun`. -/
def runBody (env : Env) (visitor : TestsVisitor) (observer : TestObserver) : M Unit := do
  traverse_test_tree env visitor env.master_test_suite
  register_observer observer
  framework_run env

/-- The text `FindInitFunc` reports when the load fails. -/
def loadFailureText (env : Env) (fileName : String) : String :=
  "Failed to load DLL " ++ fileName ++ ": " ++ GetErrorString env

/-- The events with which an entry point closes once the framework has been
entered, by the way its body ended (`r`) and the log at that moment (`t`):
the error path reports and cleans up; the other paths clear and release, and
report and clean up when that `clear` throws. -/
def closing (env : Env) (errorReporter : ErrorReporter) (h : HMODULE)
    (r : Option Exc) (t : List Event) : List Event :=
  match r with
  | some (.framework x) =>
    [.call (.errorReporter (errorText (.framework x)))
        (errorReporter t (errorText (.framework x))),
      .framework_clear, .FreeLibrary h]
  | _ =>
    match env.clear t with
    | none => [.framework_clear, .FreeLibrary h]
    | some x =>
      [.framework_clear,
        .call (.errorReporter (errorText (.framework x)))
          (errorReporter (t ++ [.framework_clear]) (errorText (.framework x))),
        .framework_clear, .FreeLibrary h]

/-- The log of one call of `BoostTestExplore`. -/
def exploreTrace (env : Env) (fileName : String)
    (testCaseVisitor beginTestSuiteVisitor endTestSuiteVisitor : Visitor)
    (errorReporter : ErrorReporter) : List Event :=
  (BoostTestExplore env fileName testCaseVisitor beginTestSuiteVisitor endTestSuiteVisitor
    errorReporter World.initial).2.trace

/-- The log of one call of `BoostTestRun`. -/
def runTrace (env : Env) (fileName : String)
    (testCaseVisitor beginTestSuiteVisitor endTestSuiteVisitor : Visitor)
    (shouldSkipVisitor : Option Visitor)
    (testStart : TestStartEventHandler)
    (testFinish testAborted : TestEventHandler)
    (testUnitStart : TestUnitEventHandler)
    (testUnitFinish : TestUnitFinishedEventHandler)
    (testUnitSkipped testUnitAborted : TestUnitEventHandler)
    (assertionResult : AssertionResultEventHandler)
    (exceptionCaught : ExceptionCaughtEventHandler)
    (errorReporter : ErrorReporter) : List Event :=
  (BoostTestRun env fileName testCaseVisitor beginTestSuiteVisitor endTestSuiteVisitor
    shouldSkipVisitor testStart testFinish testAborted testUnitStart testUnitFinish
    testUnitSkipped testUnitAborted assertionResult exceptionCaught errorReporter
    World.initial).2.trace

mutual
/-- The depth-first trace of a tree, as the specification describes it: a
case is visited; a suite is entered, then its members are traced in declared
order, then the suite is left.  Every callback carries the name of its unit
as a wide string. -/
def dfsTrace : test_unit → List Call
  | .test_case n => [.testCaseVisitor (ToWide n)]
  | .test_suite n ms =>
    .beginTestSuiteVisitor (ToWide n) :: (dfsMembers ms ++ [.endTestSuiteVisitor (ToWide n)])
/-- The traces of the members of a suite, one after the other. -/
def dfsMembers : List test_unit → List Call
  | [] => []
  | tu :: rest => dfsTrace tu ++ dfsMembers rest
end

mutual
/-- The number of suites of a tree. -/
def test_unit.suites : test_unit → Nat
  | .test_case _ => 0
  | .test_suite _ ms => 1 + suitesOfMembers ms
/-- The number of suites among the members of a suite and below them. -/
def suitesOfMembers : List test_unit → Nat
  | [] => 0
  | tu :: rest => tu.suites + suitesOfMembers rest
end

mutual
/-- The number of cases of a tree. -/
def test_unit.cases : test_unit → Nat
  | .test_case _ => 1
  | .test_suite _ ms => casesOfMembers ms
/-- The number of cases among the members of a suite and below them. -/
def casesOfMembers : List test_unit → Nat
  | [] => 0
  | tu :: rest => tu.cases + casesOfMembers rest
end

/-- The host callback invoked by an event, if the event is one. -/
def Event.toCall : Event → Option Call
  | .call c _ => some c
  | _ => none

/-- The discovery callbacks invoked in a log, in order. -/
def discoveryCalls (t : List Event) : List Call :=
  (t.filterMap Event.toCall).filter Call.isDiscovery

/-- The call is an enter-suite. -/
def Call.isBegin : Call → Bool
  | .beginTestSuiteVisitor _ => true
  | _ => false

/-- The call is an exit-suite. -/
def Call.isEnd : Call → Bool
  | .endTestSuiteVisitor _ => true
  | _ => false

/-- The call is a visit-case. -/
def Call.isVisit : Call → Bool
  | .testCaseVisitor _ => true
  | _ => false

/-! ## Statements about the log of a call -/

/-- What C2 states of a log: once a discovery callback (visit-case,
enter-suite or exit-suite) has returned false, no discovery callback is
invoked after it, and the error reporter is not invoked in the call. -/
def CancelEndsCallSilently (t : List Event) : Prop :=
  ∀ pre e post, t = pre ++ e :: post → e.isCancel = true →
    (∀ e2 ∈ post, e2.isDiscoveryCall = false) ∧ (∀ e2 ∈ t, e2.isErrorReport = false)

/-- C2 as the code has it: once a discovery callback has returned false, no
discovery callback is invoked after it and the error reporter was not invoked
before it; the error reporter is not invoked after it either when the
`framework::clear()` that follows succeeds, and is invoked exactly once when
that `clear` throws. -/
def CancelEndsDiscovery (env : Env) (t : List Event) : Prop :=
  ∀ pre e post, t = pre ++ e :: post → e.isCancel = true →
    (∀ e2 ∈ post, e2.isDiscoveryCall = false) ∧
    (∀ e2 ∈ pre, e2.isErrorReport = false) ∧
    (env.clear (pre ++ [e]) = none → ∀ e2 ∈ post, e2.isErrorReport = false) ∧
    (env.clear (pre ++ [e]) ≠ none → post.countP Event.isErrorReport = 1)

/-- What C5 states of a log: when the error reporter is invoked, it is
invoked exactly once and no discovery or run callback is invoked in the
call. -/
def ErrorReportExcludesCallbacks (t : List Event) : Prop :=
  (∃ e ∈ t, e.isErrorReport = true) →
    t.countP Event.isErrorReport = 1 ∧
      ∀ e ∈ t, e.isDiscoveryCall = false ∧ e.isRunCall = false

/-- C5 as the code has it: the error reporter is invoked at most once, and no
host callback is invoked after it. -/
def ErrorReportIsLast (t : List Event) : Prop :=
  t.countP Event.isErrorReport ≤ 1 ∧
    ∀ pre e post, t = pre ++ e :: post → e.isErrorReport = true →
      ∀ e2 ∈ post, e2.toCall = none

/-- No discovery callback and no run callback is invoked in the log. -/
def NoCallbacks (t : List Event) : Prop :=
  ∀ e ∈ t, e.isDiscoveryCall = false ∧ e.isRunCall = false

/-- What C6 states of a log: after a `framework::clear()` that throws, the
error reporter is not invoked. -/
def ClearFailureDiscarded (env : Env) (t : List Event) : Prop :=
  ∀ pre post, t = pre ++ .framework_clear :: post → env.clear pre ≠ none →
    ∀ e2 ∈ post, e2.isErrorReport = false

/-- C6 as the code has it.  A `framework::clear()` that throws after the
error reporter has been invoked is the one inside `CleanUp`: its failure is
discarded, no report follows.  A `clear` that throws before any report is the
one of the normal path: its failure is reported, exactly once. -/
def ClearFailureHandled (env : Env) (t : List Event) : Prop :=
  ∀ pre post, t = pre ++ .framework_clear :: post → env.clear pre ≠ none →
    ((∃ e ∈ pre, e.isErrorReport = true) → ∀ e2 ∈ post, e2.isErrorReport = false) ∧
    ((∀ e ∈ pre, e.isErrorReport = false) → post.countP Event.isErrorReport = 1)

/-- The event is a call of `framework::clear()`. -/
def Event.isClear : Event → Bool
  | .framework_clear => true
  | _ => false

/-- The state in which an entry point starts the tree walk: the module is
loaded at `h` and `framework::init` has returned. -/
def walkStart (env : Env) (fileName : String) : World :=
  ⟨env.LoadLibrary fileName, none,
    [.LoadLibrary fileName (env.LoadLibrary fileName),
      .framework_init (env.GetProcAddress (env.LoadLibrary fileName) initFuncName)]⟩

/-- A host callback that always answers true. -/
def always {α : Type} : Callback α := fun _ _ => true

/-- A host callback that always answers false. -/
def never {α : Type} : Callback α := fun _ _ => false

/-- A sample tree: a master suite with a case, a nested suite and a case. -/
def sampleTree : test_unit :=
  .test_suite "master" [.test_case "a", .test_suite "s" [.test_case "b"], .test_case "c"]

/-- A sample environment: the module loads at handle 7, exports the entry
symbol at address 9, and the framework never fails. -/
def sampleEnv : Env where
  LoadLibrary := fun _ => 7
  FormatMessage := some "The specified module could not be found."
  GetProcAddress := fun _ _ => 9
  init := fun _ => none
  master_test_suite := sampleTree
  traverse_fault := fun _ => none
  run := .notify (.test_start 3) (.notify (.test_unit_start sampleTree) .finish)
  clear := fun _ => none

/-- The sample environment with a module that does not load. -/
def sampleEnvNoLoad : Env := { sampleEnv with LoadLibrary := fun _ => 0 }

/-- The sample environment with a module that lacks the entry symbol. -/
def sampleEnvNoSymbol : Env := { sampleEnv with GetProcAddress := fun _ _ => 0 }

/-- The sample environment with a `framework::clear()` that throws. -/
def sampleEnvClearFails : Env :=
  { sampleEnv with clear := fun _ => some (.std_exception "clear failed") }

/-- The sample environment with an empty master suite and a
`framework::run()` that throws at once. -/
def sampleEnvRunFails : Env :=
  { sampleEnv with
    master_test_suite := .test_suite "master" []
    run := .raise (.std_exception "test tree is empty") }

/-- A test case whose name is the single `char` `0xE9`. -/
def sampleAccentedCase : test_unit := .test_case (String.singleton (Char.ofNat 0xE9))

/-- The sample environment with a master suite that holds the case named by
the single `char` `0xE9`. -/
def sampleEnvAccented : Env :=
  { sampleEnv with master_test_suite := .test_suite "master" [sampleAccentedCase] }

/-- The sample environment with a `framework::init` that throws. -/
def sampleEnvInitFails : Env :=
  { sampleEnv with init := fun _ => some (.execution_exception ⟨""⟩) }

/-! # Theorems

## The monad -/

theorem bind_apply {α β : Type} (m : M α) (f : α → M β) (w : World) :
    (m >>= f) w = match m w with
      | (.ok a, w1) => f a w1
      | (.error e, w1) => (.error e, w1) := rfl

theorem pure_apply {α : Type} (a : α) (w : World) : (pure a : M α) w = (.ok a, w) := rfl

theorem Sat.pure {α : Type} (good stop : Event → Bool) (a : α) :
    Sat good stop (pure a : M α) := by
  intro w
  refine ⟨rfl, [], by simp [pure_apply], ?_⟩
  simp [pure_apply, excOf, Outcome]

theorem Sat.bind {α β : Type} {good stop : Event → Bool} {m : M α} {f : α → M β}
    (hm : Sat good stop m) (hf : ∀ a, Sat good stop (f a)) : Sat good stop (m >>= f) := by
  intro w
  obtain ⟨h1, evs, h3, h4⟩ := hm w
  rw [bind_apply]
  rcases hmw : m w with ⟨r, w1⟩
  rw [hmw] at h1 h3 h4
  cases r with
  | error e =>
    exact ⟨h1, evs, h3, h4⟩
  | ok a =>
    obtain ⟨g1, evs2, g3, g4⟩ := hf a w1
    simp only at h1 h3 h4 ⊢
    refine ⟨g1.trans h1, evs ++ evs2, by rw [g3, h3, List.append_assoc], ?_⟩
    simp only [excOf, Outcome] at h4
    rcases hr : excOf (f a w1).1 with _ | e
    · rw [hr] at g4
      simp only [Outcome] at g4 ⊢
      intro e he
      rcases List.mem_append.1 he with h | h
      · exact h4 e h
      · exact g4 e h
    · rw [hr] at g4
      cases e with
      | execution_cancelled =>
        simp only [Outcome] at g4 ⊢
        obtain ⟨pre, last, e1, e2, e3⟩ := g4
        refine ⟨evs ++ pre, last, by rw [e1, List.append_assoc], ?_, e3⟩
        intro e he
        rcases List.mem_append.1 he with h | h
        · exact h4 e h
        · exact e2 e h
      | framework x =>
        simp only [Outcome] at g4 ⊢
        intro e he
        rcases List.mem_append.1 he with h | h
        · exact h4 e h
        · exact g4 e h

theorem invoke_apply (c : Call) (answer : List Event → Bool) (w : World) :
    invoke c answer w =
      (.ok (answer w.trace), { w with trace := w.trace ++ [.call c (answer w.trace)] }) := rfl

theorem emit_apply (e : Event) (w : World) :
    emit e w = (.ok (), { w with trace := w.trace ++ [e] }) := rfl

theorem throwExc_apply {α : Type} (e : Exc) (w : World) :
    (throwExc e : M α) w = (.error e, w) := rfl

theorem Outcome.cancel {good stop : Event → Bool} (pre : List Event) (last : Event)
    (hpre : ∀ e ∈ pre, good e = true) (hlast : stop last = true) :
    Outcome good stop (some .execution_cancelled) (pre ++ [last]) :=
  ⟨pre, last, rfl, hpre, hlast⟩

theorem Outcome.none {good stop : Event → Bool} (evs : List Event)
    (h : ∀ e ∈ evs, good e = true) : Outcome good stop none evs := h

theorem Outcome.framework {good stop : Event → Bool} (x : FrameworkExc) (evs : List Event)
    (h : ∀ e ∈ evs, good e = true) : Outcome good stop (some (.framework x)) evs := h

theorem TestsVisitor.visit_sat (V : TestsVisitor) (tc : test_unit) :
    Sat Event.walkGood Event.isCancel (V.visit tc) := by
  intro w
  simp only [TestsVisitor.visit, bind_apply, invoke_apply]
  cases V.testCaseVisitor_ w.trace (ToWide tc.p_name)
  · exact ⟨rfl, [_], rfl, Outcome.cancel [] _ (by simp) rfl⟩
  · cases V.shouldSkipVisitor_ with
    | none =>
      exact ⟨rfl, [_], rfl, Outcome.none _ (by simp [Event.walkGood, Call.isWalkCallback])⟩
    | some f =>
      simp only [Bool.not_true, Bool.false_eq_true, ↓reduceIte, bind_apply, invoke_apply]
      cases f (w.trace ++ [Event.call (Call.testCaseVisitor (ToWide tc.p_name)) true])
        (ToWide tc.p_name)
      · exact ⟨rfl, [.call (.testCaseVisitor (ToWide tc.p_name)) true,
            .call (.shouldSkipVisitor (ToWide tc.p_name)) false], by simp [pure_apply],
          Outcome.none _ (by simp [Event.walkGood, Call.isWalkCallback, Call.isDiscovery])⟩
      · exact ⟨rfl, [.call (.testCaseVisitor (ToWide tc.p_name)) true,
            .call (.shouldSkipVisitor (ToWide tc.p_name)) true, .p_enabled_set tc.p_name false],
          by simp [emit_apply],
          Outcome.none _ (by simp [Event.walkGood, Call.isWalkCallback, Call.isDiscovery])⟩

theorem TestsVisitor.test_suite_start_sat (V : TestsVisitor) (ts : test_unit) :
    Sat Event.walkGood Event.isCancel (V.test_suite_start ts) := by
  intro w
  simp only [TestsVisitor.test_suite_start, bind_apply, invoke_apply]
  cases V.beginTestSuiteVisitor_ w.trace (ToWide ts.p_name)
  · exact ⟨rfl, [_], rfl, Outcome.cancel [] _ (by simp) rfl⟩
  · cases V.shouldSkipVisitor_ with
    | none =>
      exact ⟨rfl, [_], rfl, Outcome.none _ (by simp [Event.walkGood, Call.isWalkCallback])⟩
    | some f =>
      simp only [Bool.not_true, Bool.false_eq_true, ↓reduceIte, bind_apply, invoke_apply]
      cases f (w.trace ++ [Event.call (Call.beginTestSuiteVisitor (ToWide ts.p_name)) true])
        (ToWide ts.p_name)
      · exact ⟨rfl, [.call (.beginTestSuiteVisitor (ToWide ts.p_name)) true,
            .call (.shouldSkipVisitor (ToWide ts.p_name)) false], by simp [pure_apply],
          Outcome.none _ (by simp [Event.walkGood, Call.isWalkCallback, Call.isDiscovery])⟩
      · exact ⟨rfl, [.call (.beginTestSuiteVisitor (ToWide ts.p_name)) true,
            .call (.shouldSkipVisitor (ToWide ts.p_name)) true, .p_enabled_set ts.p_name false],
          by simp [emit_apply, bind_apply, pure_apply],
          Outcome.none _ (by simp [Event.walkGood, Call.isWalkCallback, Call.isDiscovery])⟩

theorem TestsVisitor.test_suite_finish_sat (V : TestsVisitor) (ts : test_unit) :
    Sat Event.walkGood Event.isCancel (V.test_suite_finish ts) := by
  intro w
  simp only [TestsVisitor.test_suite_finish, bind_apply, invoke_apply]
  cases V.endTestSuiteVisitor_ w.trace (ToWide ts.p_name)
  · exact ⟨rfl, [_], rfl, Outcome.cancel [] _ (by simp) rfl⟩
  · exact ⟨rfl, [_], rfl, Outcome.none _ (by simp [Event.walkGood, Call.isWalkCallback])⟩

theorem framework_step_sat (env : Env) (good stop : Event → Bool) :
    Sat good stop (framework_step env) := by
  intro w
  simp only [framework_step]
  cases env.traverse_fault w.trace with
  | none => exact ⟨rfl, [], by simp, Outcome.none _ (by simp)⟩
  | some x => exact ⟨rfl, [], by simp, Outcome.framework _ _ (by simp)⟩

mutual
theorem traverse_test_tree_sat (env : Env) (V : TestsVisitor) :
    ∀ tu, Sat Event.walkGood Event.isCancel (traverse_test_tree env V tu)
  | .test_case n => by
    rw [traverse_test_tree]
    exact Sat.bind (framework_step_sat env _ _) (fun _ => V.visit_sat _)
  | .test_suite n ms => by
    rw [traverse_test_tree]
    refine Sat.bind (framework_step_sat env _ _) (fun _ => ?_)
    refine Sat.bind (V.test_suite_start_sat _) (fun b => ?_)
    cases b
    · exact Sat.pure _ _ _
    · refine Sat.bind (traverse_members_sat env V ms) (fun _ => ?_)
      exact Sat.bind (framework_step_sat env _ _) (fun _ => V.test_suite_finish_sat _)
theorem traverse_members_sat (env : Env) (V : TestsVisitor) :
    ∀ ms, Sat Event.walkGood Event.isCancel (traverse_members env V ms)
  | [] => by
    rw [traverse_members]
    exact Sat.pure _ _ _
  | tu :: rest => by
    rw [traverse_members]
    exact Sat.bind (traverse_test_tree_sat env V tu) (fun _ => traverse_members_sat env V rest)
end

theorem test_unit.isSuite_eq (tu : test_unit) :
    decide (tu.p_type = .tut_suite) = tu.isSuite := by
  cases tu <;> rfl

theorem TestObserver.deliver_eval (o : TestObserver) (ev : ObserverEvent) (w : World) :
    o.deliver ev w =
      (if o.answer w.trace ev = true then .ok () else .error .execution_cancelled,
        { w with trace := w.trace ++ [.call (hostCallFor ev) (o.answer w.trace ev)] }) := by
  cases ev <;>
    simp only [TestObserver.deliver, TestObserver.test_start, TestObserver.test_finish,
      TestObserver.test_aborted, TestObserver.test_unit_start, TestObserver.test_unit_finish,
      TestObserver.test_unit_skipped, TestObserver.test_unit_aborted,
      TestObserver.assertion_result, TestObserver.exception_caught, bind_apply, invoke_apply,
      test_unit.isSuite_eq, hostCallFor, TestObserver.answer] <;>
    split <;> simp_all [throwExc_apply, pure_apply]

theorem hostCallFor_isRun (ev : ObserverEvent) : (hostCallFor ev).isRun = true := by
  cases ev <;> rfl

theorem TestObserver.deliver_sat (o : TestObserver) (ev : ObserverEvent) :
    Sat Event.runGood Event.runStop (o.deliver ev) := by
  intro w
  rw [TestObserver.deliver_eval]
  cases o.answer w.trace ev
  · exact ⟨rfl, [.call (hostCallFor ev) false], rfl,
      Outcome.cancel [] _ (by simp) (by simp [Event.runStop, hostCallFor_isRun])⟩
  · exact ⟨rfl, [.call (hostCallFor ev) true], rfl,
      Outcome.none _ (by simp [Event.runGood, hostCallFor_isRun])⟩

theorem run_script_sat (observer : Option TestObserver) :
    ∀ s, Sat Event.runGood Event.runStop (run_script observer s)
  | .finish => by
    rw [run_script]
    exact Sat.pure _ _ _
  | .raise x => by
    rw [run_script]
    intro w
    exact ⟨rfl, [], by simp [throwExc_apply], Outcome.framework _ _ (by simp)⟩
  | .notify ev next => by
    cases observer with
    | none =>
      simp only [run_script]
      exact Sat.bind (Sat.pure _ _ _) (fun _ => run_script_sat none next)
    | some o =>
      simp only [run_script]
      exact Sat.bind (o.deliver_sat ev) (fun _ => run_script_sat (some o) next)

theorem Sat.mono {α : Type} {good stop good2 stop2 : Event → Bool} {m : M α}
    (hm : Sat good stop m) (hg : ∀ e, good e = true → good2 e = true)
    (hs : ∀ e, stop e = true → stop2 e = true) : Sat good2 stop2 m := by
  intro w
  obtain ⟨h1, evs, h3, h4⟩ := hm w
  refine ⟨h1, evs, h3, ?_⟩
  rcases hr : excOf (m w).1 with _ | e
  · rw [hr] at h4
    exact fun e he => hg e (h4 e he)
  · rw [hr] at h4
    cases e with
    | execution_cancelled =>
      obtain ⟨pre, last, e1, e2, e3⟩ := h4
      exact ⟨pre, last, e1, fun e he => hg e (e2 e he), hs last e3⟩
    | framework x => exact fun e he => hg e (h4 e he)

theorem walkGood_bodyGood (e : Event) (h : e.walkGood = true) : e.bodyGood = true := by
  cases e <;> simp_all [Event.bodyGood, Event.walkGood]

theorem runGood_bodyGood (e : Event) (h : e.runGood = true) : e.bodyGood = true := by
  cases e <;> simp_all [Event.bodyGood, Event.runGood]

theorem isCancel_bodyStop (e : Event) (h : e.isCancel = true) : e.bodyStop = true := by
  simp [Event.bodyStop, h]

theorem runStop_bodyStop (e : Event) (h : e.runStop = true) : e.bodyStop = true := by
  simp [Event.bodyStop, h]

theorem traverse_test_tree_body (env : Env) (V : TestsVisitor) (tu : test_unit) :
    Sat Event.bodyGood Event.bodyStop (traverse_test_tree env V tu) :=
  (traverse_test_tree_sat env V tu).mono walkGood_bodyGood isCancel_bodyStop

theorem register_observer_sat (observer : TestObserver) :
    Sat Event.bodyGood Event.bodyStop (register_observer observer) := by
  intro w
  exact ⟨rfl, [.register_observer], rfl, Outcome.none _ (by simp [Event.bodyGood])⟩

theorem framework_run_sat (env : Env) :
    Sat Event.bodyGood Event.bodyStop (framework_run env) := by
  intro w
  have h5 : Sat Event.bodyGood Event.bodyStop
      (emit .framework_run >>= fun _ => run_script w.observer env.run) :=
    Sat.bind
      (by intro w; exact ⟨rfl, [.framework_run], rfl, Outcome.none _ (by simp [Event.bodyGood])⟩)
      (fun _ => (run_script_sat w.observer env.run).mono runGood_bodyGood runStop_bodyStop)
  exact h5 w

theorem runBody_sat (env : Env) (visitor : TestsVisitor) (observer : TestObserver) :
    Sat Event.bodyGood Event.bodyStop (runBody env visitor observer) :=
  Sat.bind (traverse_test_tree_body env visitor _)
    (fun _ => Sat.bind (register_observer_sat observer) (fun _ => framework_run_sat env))

theorem BoostTestExplore_eq (env : Env) (fileName : String)
    (testCaseVisitor beginTestSuiteVisitor endTestSuiteVisitor : Visitor)
    (errorReporter : ErrorReporter) :
    BoostTestExplore env fileName testCaseVisitor beginTestSuiteVisitor endTestSuiteVisitor
        errorReporter =
      entryPoint env fileName errorReporter
        (traverse_test_tree env
          ⟨testCaseVisitor, beginTestSuiteVisitor, endTestSuiteVisitor, none⟩
          env.master_test_suite) := rfl

theorem BoostTestRun_eq (env : Env) (fileName : String)
    (testCaseVisitor beginTestSuiteVisitor endTestSuiteVisitor : Visitor)
    (shouldSkipVisitor : Option Visitor)
    (testStart : TestStartEventHandler)
    (testFinish testAborted : TestEventHandler)
    (testUnitStart : TestUnitEventHandler)
    (testUnitFinish : TestUnitFinishedEventHandler)
    (testUnitSkipped testUnitAborted : TestUnitEventHandler)
    (assertionResult : AssertionResultEventHandler)
    (exceptionCaught : ExceptionCaughtEventHandler)
    (errorReporter : ErrorReporter) :
    BoostTestRun env fileName testCaseVisitor beginTestSuiteVisitor endTestSuiteVisitor
        shouldSkipVisitor testStart testFinish testAborted testUnitStart testUnitFinish
        testUnitSkipped testUnitAborted assertionResult exceptionCaught errorReporter =
      entryPoint env fileName errorReporter
        (runBody env
          ⟨testCaseVisitor, beginTestSuiteVisitor, endTestSuiteVisitor, shouldSkipVisitor⟩
          ⟨testStart, testFinish, testAborted, testUnitStart, testUnitFinish,
            testUnitSkipped, testUnitAborted, assertionResult, exceptionCaught,
            errorReporter⟩) := rfl

theorem CleanUp_apply (env : Env) (h : HMODULE) (w : World) :
    CleanUp env h w =
      (.ok (), { w with trace := w.trace ++
        (.framework_clear :: if h = 0 then [] else [.FreeLibrary h]) }) := by
  simp only [CleanUp, bind_apply, catchAll, framework_clear]
  cases env.clear w.trace <;> by_cases hh : h = 0 <;>
    simp [hh, pure_apply, FreeLibrary, emit_apply]

theorem entryPoint_load_failure (env : Env) (fileName : String) (errorReporter : ErrorReporter)
    (body : M Unit) (hload : env.LoadLibrary fileName = 0) :
    entryPoint env fileName errorReporter body World.initial =
      (.ok (), ⟨0, none, [.LoadLibrary fileName 0,
        .call (.errorReporter (loadFailureText env fileName))
          (errorReporter [.LoadLibrary fileName 0] (loadFailureText env fileName))]⟩) := by
  simp [entryPoint, bind_apply, setH, tryCatch, FindInitFunc, LoadLibrary, hload, invoke_apply,
    pure_apply, World.initial, loadFailureText]

theorem entryPoint_no_symbol (env : Env) (fileName : String) (errorReporter : ErrorReporter)
    (body : M Unit) (hload : env.LoadLibrary fileName ≠ 0)
    (hsym : env.GetProcAddress (env.LoadLibrary fileName) initFuncName = 0) :
    entryPoint env fileName errorReporter body World.initial =
      (.ok (), ⟨0, none, [.LoadLibrary fileName (env.LoadLibrary fileName),
        .FreeLibrary (env.LoadLibrary fileName)]⟩) := by
  simp [entryPoint, bind_apply, setH, tryCatch, FindInitFunc, LoadLibrary, hload, hsym,
    pure_apply, World.initial, FreeLibrary, emit_apply]

theorem entryPoint_init_failure (env : Env) (fileName : String) (errorReporter : ErrorReporter)
    (body : M Unit) (x : FrameworkExc) (hload : env.LoadLibrary fileName ≠ 0)
    (hsym : env.GetProcAddress (env.LoadLibrary fileName) initFuncName ≠ 0)
    (hinit : env.init (env.GetProcAddress (env.LoadLibrary fileName) initFuncName) = some x) :
    entryPoint env fileName errorReporter body World.initial =
      (.ok (), ⟨env.LoadLibrary fileName, none,
        [.LoadLibrary fileName (env.LoadLibrary fileName),
          .framework_init (env.GetProcAddress (env.LoadLibrary fileName) initFuncName)] ++
        closing env errorReporter (env.LoadLibrary fileName) (some (.framework x))
          [.LoadLibrary fileName (env.LoadLibrary fileName),
            .framework_init (env.GetProcAddress (env.LoadLibrary fileName) initFuncName)]⟩) := by
  simp [entryPoint, bind_apply, setH, tryCatch, FindInitFunc, LoadLibrary, hload, hsym,
    pure_apply, World.initial, framework_init, hinit, reportAndCleanUp, invoke_apply, getH,
    CleanUp_apply, closing]

theorem entryPoint_entered (env : Env) (fileName : String) (errorReporter : ErrorReporter)
    (body : M Unit) (hbody : ∀ w, (body w).2.h = w.h)
    (hload : env.LoadLibrary fileName ≠ 0)
    (hsym : env.GetProcAddress (env.LoadLibrary fileName) initFuncName ≠ 0)
    (hinit : env.init (env.GetProcAddress (env.LoadLibrary fileName) initFuncName) = none)
    (r : Except Exc Unit) (w2 : World)
    (hres : body ⟨env.LoadLibrary fileName, none,
        [.LoadLibrary fileName (env.LoadLibrary fileName),
          .framework_init (env.GetProcAddress (env.LoadLibrary fileName) initFuncName)]⟩
        = (r, w2)) :
    entryPoint env fileName errorReporter body World.initial =
      (.ok (), ⟨w2.h, w2.observer, w2.trace ++
        closing env errorReporter (env.LoadLibrary fileName) (excOf r) w2.trace⟩) := by
  have hh := hbody ⟨env.LoadLibrary fileName, none,
        [.LoadLibrary fileName (env.LoadLibrary fileName),
          .framework_init (env.GetProcAddress (env.LoadLibrary fileName) initFuncName)]⟩
  rw [hres] at hh
  simp only at hh
  rcases r with e | u
  · cases e with
    | execution_cancelled =>
      cases hc : env.clear w2.trace <;>
        simp [entryPoint, bind_apply, setH, tryCatch, FindInitFunc, LoadLibrary, hload, hsym,
          pure_apply, World.initial, framework_init, hinit, reportAndCleanUp, invoke_apply,
          getH, CleanUp_apply, closing, catchCancelled, framework_clear, hres, hc, excOf, hh,
          FreeLibrary, emit_apply]
    | framework x =>
      simp [entryPoint, bind_apply, setH, tryCatch, FindInitFunc, LoadLibrary, hload, hsym,
        pure_apply, World.initial, framework_init, hinit, reportAndCleanUp, invoke_apply,
        getH, CleanUp_apply, closing, catchCancelled, framework_clear, hres, excOf, hh,
        FreeLibrary, emit_apply]
  · cases hc : env.clear w2.trace <;>
      simp [entryPoint, bind_apply, setH, tryCatch, FindInitFunc, LoadLibrary, hload, hsym,
        pure_apply, World.initial, framework_init, hinit, reportAndCleanUp, invoke_apply,
        getH, CleanUp_apply, closing, catchCancelled, framework_clear, hres, hc, excOf, hh,
        FreeLibrary, emit_apply]

theorem Outcome.all {good stop : Event → Bool} {r : Option Exc} {evs : List Event}
    (q : Event → Prop) (h : Outcome good stop r evs)
    (hg : ∀ e, good e = true → q e) (hs : ∀ e, stop e = true → q e) :
    ∀ e ∈ evs, q e := by
  intro e he
  rcases r with _ | x
  · exact hg e (h e he)
  · cases x with
    | execution_cancelled =>
      obtain ⟨pre, last, e1, e2, e3⟩ := h
      rw [e1] at he
      rcases List.mem_append.1 he with h1 | h1
      · exact hg e (e2 e h1)
      · rw [List.mem_singleton.1 h1]
        exact hs last e3
    | framework y => exact hg e (h e he)

theorem Outcome.nil {good stop : Event → Bool} (x : FrameworkExc) :
    Outcome good stop (some (.framework x)) [] := by
  intro e he
  simp at he

/-- The shape of the log of an entry point: one of the two short paths, or
the opening, the events of the body and the closing. -/
theorem entryPoint_shape (env : Env) (fileName : String) (errorReporter : ErrorReporter)
    (body : M Unit) (hbody : Sat Event.bodyGood Event.bodyStop body) :
    (entryPoint env fileName errorReporter body World.initial).1 = .ok () ∧
    ((env.LoadLibrary fileName = 0 ∧
        (entryPoint env fileName errorReporter body World.initial).2.trace =
          [.LoadLibrary fileName 0,
            .call (.errorReporter (loadFailureText env fileName))
              (errorReporter [.LoadLibrary fileName 0] (loadFailureText env fileName))]) ∨
      (env.LoadLibrary fileName ≠ 0 ∧
        env.GetProcAddress (env.LoadLibrary fileName) initFuncName = 0 ∧
        (entryPoint env fileName errorReporter body World.initial).2.trace =
          [.LoadLibrary fileName (env.LoadLibrary fileName),
            .FreeLibrary (env.LoadLibrary fileName)]) ∨
      (env.LoadLibrary fileName ≠ 0 ∧
        env.GetProcAddress (env.LoadLibrary fileName) initFuncName ≠ 0 ∧
        ∃ evs r, Outcome Event.bodyGood Event.bodyStop r evs ∧
          (entryPoint env fileName errorReporter body World.initial).2.trace =
            [.LoadLibrary fileName (env.LoadLibrary fileName),
              .framework_init (env.GetProcAddress (env.LoadLibrary fileName) initFuncName)] ++
            evs ++
            closing env errorReporter (env.LoadLibrary fileName) r
              ([.LoadLibrary fileName (env.LoadLibrary fileName),
                .framework_init (env.GetProcAddress (env.LoadLibrary fileName) initFuncName)]
                ++ evs))) := by
  by_cases hload : env.LoadLibrary fileName = 0
  · rw [entryPoint_load_failure env fileName errorReporter body hload]
    exact ⟨rfl, Or.inl ⟨hload, rfl⟩⟩
  · by_cases hsym : env.GetProcAddress (env.LoadLibrary fileName) initFuncName = 0
    · rw [entryPoint_no_symbol env fileName errorReporter body hload hsym]
      exact ⟨rfl, Or.inr (Or.inl ⟨hload, hsym, rfl⟩)⟩
    · cases hinit : env.init (env.GetProcAddress (env.LoadLibrary fileName) initFuncName) with
      | some x =>
        rw [entryPoint_init_failure env fileName errorReporter body x hload hsym hinit]
        exact ⟨rfl, Or.inr (Or.inr ⟨hload, hsym, [], some (.framework x), Outcome.nil x,
          by simp⟩)⟩
      | none =>
        obtain ⟨h1, evs, h2, h3⟩ := hbody ⟨env.LoadLibrary fileName, none,
          [.LoadLibrary fileName (env.LoadLibrary fileName),
            .framework_init (env.GetProcAddress (env.LoadLibrary fileName) initFuncName)]⟩
        rw [entryPoint_entered env fileName errorReporter body (fun w => (hbody w).1) hload hsym
          hinit _ _ rfl]
        refine ⟨rfl, Or.inr (Or.inr ⟨hload, hsym, evs, _, h3, ?_⟩)⟩
        simp only at h2 ⊢
        rw [h2]

theorem bodyGood_not_free (e : Event) (h : e.bodyGood = true) : e.isFree = false := by
  cases e <;> simp_all [Event.bodyGood, Event.walkGood, Event.runGood, Event.isFree]

theorem bodyStop_not_free (e : Event) (h : e.bodyStop = true) : e.isFree = false := by
  cases e <;> simp_all [Event.bodyStop, Event.isCancel, Event.runStop, Event.isFree]

theorem closing_free (env : Env) (errorReporter : ErrorReporter) (h : HMODULE)
    (r : Option Exc) (t : List Event) :
    (closing env errorReporter h r t).countP Event.isFree = 1 ∧
      (closing env errorReporter h r t).count (.FreeLibrary h) = 1 := by
  unfold closing
  split
  · simp [Event.isFree]
  · split <;> simp [Event.isFree]

theorem entryPoint_free (env : Env) (fileName : String) (errorReporter : ErrorReporter)
    (body : M Unit) (hbody : Sat Event.bodyGood Event.bodyStop body) :
    ((entryPoint env fileName errorReporter body World.initial).2.trace.countP Event.isFree =
        if env.LoadLibrary fileName = 0 then 0 else 1) ∧
      ((entryPoint env fileName errorReporter body World.initial).2.trace.count
          (.FreeLibrary (env.LoadLibrary fileName)) =
        if env.LoadLibrary fileName = 0 then 0 else 1) := by
  obtain ⟨-, h | h | h⟩ := entryPoint_shape env fileName errorReporter body hbody
  · obtain ⟨h1, h2⟩ := h
    rw [h2]
    simp [h1, Event.isFree]
  · obtain ⟨h1, -, h2⟩ := h
    rw [h2]
    simp [h1, Event.isFree]
  · obtain ⟨h1, -, evs, r, h3, h2⟩ := h
    rw [h2]
    have hev : ∀ e ∈ evs, e.isFree = false :=
      h3.all (fun e => e.isFree = false) bodyGood_not_free bodyStop_not_free
    have hc1 : evs.countP Event.isFree = 0 := by
      rw [List.countP_eq_zero]
      intro e he
      simp [hev e he]
    have hc2 : evs.count (.FreeLibrary (env.LoadLibrary fileName)) = 0 := by
      rw [List.count_eq_zero]
      intro he
      have := hev _ he
      simp [Event.isFree] at this
    obtain ⟨c1, c2⟩ := closing_free env errorReporter (env.LoadLibrary fileName) r
      ([.LoadLibrary fileName (env.LoadLibrary fileName),
        .framework_init (env.GetProcAddress (env.LoadLibrary fileName) initFuncName)] ++ evs)
    simp only [List.countP_append, List.count_append, hc1, hc2, c1, c2, h1, if_false]
    simp [Event.isFree]

theorem framework_step_ok (env : Env) (hfault : ∀ t, env.traverse_fault t = none)
    (w : World) : framework_step env w = (.ok (), w) := by
  simp [framework_step, hfault]

mutual
theorem traverse_test_tree_all_true (env : Env) (V : TestsVisitor)
    (hfault : ∀ t, env.traverse_fault t = none)
    (hvisit : ∀ t n, V.testCaseVisitor_ t n = true)
    (hbegin : ∀ t n, V.beginTestSuiteVisitor_ t n = true)
    (hend : ∀ t n, V.endTestSuiteVisitor_ t n = true)
    (hskip : V.shouldSkipVisitor_ = none) :
    ∀ tu w, traverse_test_tree env V tu w =
      (.ok (), { w with trace := w.trace ++ (dfsTrace tu).map (fun c => Event.call c true) })
  | .test_case n, w => by
    simp [traverse_test_tree, bind_apply, framework_step_ok env hfault, TestsVisitor.visit,
      invoke_apply, hvisit, hskip, pure_apply, test_unit.p_name, dfsTrace]
  | .test_suite n ms, w => by
    simp [traverse_test_tree, bind_apply, framework_step_ok env hfault,
      TestsVisitor.test_suite_start, TestsVisitor.test_suite_finish,
      invoke_apply, hbegin, hend, hskip, pure_apply, test_unit.p_name, dfsTrace,
      traverse_members_all_true env V hfault hvisit hbegin hend hskip ms]
theorem traverse_members_all_true (env : Env) (V : TestsVisitor)
    (hfault : ∀ t, env.traverse_fault t = none)
    (hvisit : ∀ t n, V.testCaseVisitor_ t n = true)
    (hbegin : ∀ t n, V.beginTestSuiteVisitor_ t n = true)
    (hend : ∀ t n, V.endTestSuiteVisitor_ t n = true)
    (hskip : V.shouldSkipVisitor_ = none) :
    ∀ ms w, traverse_members env V ms w =
      (.ok (), { w with trace := w.trace ++ (dfsMembers ms).map (fun c => Event.call c true) })
  | [], w => by
    simp [traverse_members, pure_apply, dfsMembers]
  | tu :: rest, w => by
    simp [traverse_members, bind_apply, dfsMembers,
      traverse_test_tree_all_true env V hfault hvisit hbegin hend hskip tu,
      traverse_members_all_true env V hfault hvisit hbegin hend hskip rest]
end

mutual
theorem dfsTrace_counts : ∀ tu : test_unit,
    (dfsTrace tu).countP Call.isBegin = tu.suites ∧
    (dfsTrace tu).countP Call.isEnd = tu.suites ∧
    (dfsTrace tu).countP Call.isVisit = tu.cases ∧
    (dfsTrace tu).filter Call.isDiscovery = dfsTrace tu
  | .test_case n => by
    simp [dfsTrace, test_unit.suites, test_unit.cases, Call.isBegin, Call.isEnd, Call.isVisit,
      Call.isDiscovery]
  | .test_suite n ms => by
    obtain ⟨h1, h2, h3, h4⟩ := dfsMembers_counts ms
    simp [dfsTrace, test_unit.suites, test_unit.cases, Call.isBegin, Call.isEnd, Call.isVisit,
      Call.isDiscovery, List.countP_cons, List.countP_append, h1, h2, h3, h4, List.filter_cons,
      Nat.add_comm]
theorem dfsMembers_counts : ∀ ms : List test_unit,
    (dfsMembers ms).countP Call.isBegin = suitesOfMembers ms ∧
    (dfsMembers ms).countP Call.isEnd = suitesOfMembers ms ∧
    (dfsMembers ms).countP Call.isVisit = casesOfMembers ms ∧
    (dfsMembers ms).filter Call.isDiscovery = dfsMembers ms
  | [] => by
    simp [dfsMembers, suitesOfMembers, casesOfMembers]
  | tu :: rest => by
    obtain ⟨h1, h2, h3, h4⟩ := dfsTrace_counts tu
    obtain ⟨g1, g2, g3, g4⟩ := dfsMembers_counts rest
    simp [dfsMembers, suitesOfMembers, casesOfMembers, List.countP_append, h1, h2, h3, h4, g1,
      g2, g3, g4]
end

/-- The state `walkStart` is the one in which the tree walk of an entry point
starts: it is reached by `FindInitFunc` followed by `framework::init`. -/
theorem walkStart_reached (env : Env) (fileName : String) (errorReporter : ErrorReporter)
    (hload : env.LoadLibrary fileName ≠ 0)
    (hsym : env.GetProcAddress (env.LoadLibrary fileName) initFuncName ≠ 0)
    (hinit : env.init (env.GetProcAddress (env.LoadLibrary fileName) initFuncName) = none) :
    (FindInitFunc env fileName errorReporter >>= fun initFunc => framework_init env initFunc)
        World.initial =
      (.ok (), walkStart env fileName) := by
  simp [bind_apply, FindInitFunc, LoadLibrary, setH, hload, hsym, hinit, pure_apply,
    framework_init, World.initial, walkStart]

/-! ## The claims -/

section Claims

variable (env : Env) (fileName : String)
  (testCaseVisitor beginTestSuiteVisitor endTestSuiteVisitor : Visitor)
  (shouldSkipVisitor : Option Visitor)
  (testStart : TestStartEventHandler)
  (testFinish testAborted : TestEventHandler)
  (testUnitStart : TestUnitEventHandler)
  (testUnitFinish : TestUnitFinishedEventHandler)
  (testUnitSkipped testUnitAborted : TestUnitEventHandler)
  (assertionResult : AssertionResultEventHandler)
  (exceptionCaught : ExceptionCaughtEventHandler)
  (errorReporter : ErrorReporter)

/-- C1: when the module loads, exports the entry symbol, the framework
initialises and walks the tree without failing, and the three discovery
callbacks always return true, the discovery callbacks that `BoostTestExplore`
invokes are exactly the depth-first trace of the tree (enter-suite, the
members in declared order, exit-suite; visit-case for a leaf, each with the
name of its unit as a wide string), so enter-suite and exit-suite are invoked
once per suite and visit-case once per case. -/
theorem explore_emits_dfs_trace
    (hload : env.LoadLibrary fileName ≠ 0)
    (hsym : env.GetProcAddress (env.LoadLibrary fileName) initFuncName ≠ 0)
    (hinit : env.init (env.GetProcAddress (env.LoadLibrary fileName) initFuncName) = none)
    (hfault : ∀ t, env.traverse_fault t = none)
    (hvisit : ∀ t n, testCaseVisitor t n = true)
    (hbegin : ∀ t n, beginTestSuiteVisitor t n = true)
    (hend : ∀ t n, endTestSuiteVisitor t n = true) :
    discoveryCalls (exploreTrace env fileName testCaseVisitor beginTestSuiteVisitor
        endTestSuiteVisitor errorReporter) = dfsTrace env.master_test_suite ∧
    (discoveryCalls (exploreTrace env fileName testCaseVisitor beginTestSuiteVisitor
        endTestSuiteVisitor errorReporter)).countP Call.isBegin =
      env.master_test_suite.suites ∧
    (discoveryCalls (exploreTrace env fileName testCaseVisitor beginTestSuiteVisitor
        endTestSuiteVisitor errorReporter)).countP Call.isEnd =
      env.master_test_suite.suites ∧
    (discoveryCalls (exploreTrace env fileName testCaseVisitor beginTestSuiteVisitor
        endTestSuiteVisitor errorReporter)).countP Call.isVisit =
      env.master_test_suite.cases := by
  have hcalls : discoveryCalls (exploreTrace env fileName testCaseVisitor
      beginTestSuiteVisitor endTestSuiteVisitor errorReporter) =
      dfsTrace env.master_test_suite := by
    have hw := traverse_test_tree_all_true env
      ⟨testCaseVisitor, beginTestSuiteVisitor, endTestSuiteVisitor, none⟩ hfault hvisit hbegin
      hend rfl env.master_test_suite
    unfold exploreTrace
    rw [BoostTestExplore_eq, entryPoint_entered env fileName errorReporter _
      (fun w => (traverse_test_tree_body env _ _ w).1) hload hsym hinit _ _ (hw _)]
    obtain ⟨-, -, -, h4⟩ := dfsTrace_counts env.master_test_suite
    have hmap : ∀ l : List Call,
        List.filterMap Event.toCall (l.map fun c => Event.call c true) = l := by
      intro l
      induction l with
      | nil => rfl
      | cons c l ih => simp [Event.toCall, ih]
    have hclose : ∀ r t, List.filter Call.isDiscovery (List.filterMap Event.toCall
        (closing env errorReporter (env.LoadLibrary fileName) r t)) = [] := by
      intro r t
      unfold closing
      split
      · simp [Event.toCall, Call.isDiscovery]
      · split <;> simp [Event.toCall, Call.isDiscovery]
    simp only [discoveryCalls, List.filterMap_append, List.filter_append, hmap, h4, hclose]
    simp [Event.toCall]
  obtain ⟨h1, h2, h3, -⟩ := dfsTrace_counts env.master_test_suite
  rw [hcalls]
  exact ⟨rfl, h1, h2, h3⟩

/-- Witness of C1 on the sample tree, and on a tree with a case named by the
`char` `0xE9`, whose visit carries the name `0xFFE9`. -/
theorem explore_emits_dfs_trace_witness :
    discoveryCalls (exploreTrace sampleEnv "tests.dll" always always always always) =
      [.beginTestSuiteVisitor "master", .testCaseVisitor "a", .beginTestSuiteVisitor "s",
        .testCaseVisitor "b", .endTestSuiteVisitor "s", .testCaseVisitor "c",
        .endTestSuiteVisitor "master"] ∧
    sampleTree.suites = 2 ∧ sampleTree.cases = 3 ∧
    discoveryCalls (exploreTrace sampleEnvAccented "tests.dll" always always always always) =
      [.beginTestSuiteVisitor "master",
        .testCaseVisitor (String.singleton (Char.ofNat 0xFFE9)),
        .endTestSuiteVisitor "master"] :=
  ⟨(explore_emits_dfs_trace sampleEnv "tests.dll" always always always always
      (by decide) (by decide) rfl (fun _ => rfl) (fun _ _ => rfl) (fun _ _ => rfl)
      (fun _ _ => rfl)).1.trans (by decide), by decide, by decide,
    (explore_emits_dfs_trace sampleEnvAccented "tests.dll" always always always always
      (by decide) (by decide) rfl (fun _ => rfl) (fun _ _ => rfl) (fun _ _ => rfl)
      (fun _ _ => rfl)).1.trans (by decide)⟩

/-- C3, the code at an empty description: `TestObserver::exception_caught`
hands the host the empty string, while `GetWhat`, used by the `catch`
clauses of the entry points for the same exception type, substitutes the
placeholder. -/
theorem exception_caught_empty_description (o : TestObserver) (w : World) :
    (o.exception_caught ⟨""⟩ w).2.trace =
        w.trace ++ [.call (.exceptionCaught "") (o.exceptionCaught_ w.trace "")] ∧
      GetWhat ⟨""⟩ = "empty error string" := by
  constructor
  · have hw : ToWide (String.mk (execution_exception.mk "").what.data) = "" := rfl
    simp only [TestObserver.exception_caught, bind_apply, invoke_apply, hw]
    split <;> rfl
  · rfl

/-- C4: every call of `BoostTestExplore` and of `BoostTestRun` returns
normally, and its log holds exactly one `FreeLibrary`, of the loaded handle,
when the load succeeded and none when it failed — whatever the callbacks
answer and wherever the framework throws. -/
theorem handle_released_exactly_once :
    (BoostTestExplore env fileName testCaseVisitor beginTestSuiteVisitor endTestSuiteVisitor
        errorReporter World.initial).1 = .ok () ∧
    (exploreTrace env fileName testCaseVisitor beginTestSuiteVisitor endTestSuiteVisitor
        errorReporter).countP Event.isFree =
      (if env.LoadLibrary fileName = 0 then 0 else 1) ∧
    (exploreTrace env fileName testCaseVisitor beginTestSuiteVisitor endTestSuiteVisitor
        errorReporter).count (.FreeLibrary (env.LoadLibrary fileName)) =
      (if env.LoadLibrary fileName = 0 then 0 else 1) ∧
    (BoostTestRun env fileName testCaseVisitor beginTestSuiteVisitor endTestSuiteVisitor
        shouldSkipVisitor testStart testFinish testAborted testUnitStart testUnitFinish
        testUnitSkipped testUnitAborted assertionResult exceptionCaught errorReporter
        World.initial).1 = .ok () ∧
    (runTrace env fileName testCaseVisitor beginTestSuiteVisitor endTestSuiteVisitor
        shouldSkipVisitor testStart testFinish testAborted testUnitStart testUnitFinish
        testUnitSkipped testUnitAborted assertionResult exceptionCaught
        errorReporter).countP Event.isFree =
      (if env.LoadLibrary fileName = 0 then 0 else 1) ∧
    (runTrace env fileName testCaseVisitor beginTestSuiteVisitor endTestSuiteVisitor
        shouldSkipVisitor testStart testFinish testAborted testUnitStart testUnitFinish
        testUnitSkipped testUnitAborted assertionResult exceptionCaught
        errorReporter).count (.FreeLibrary (env.LoadLibrary fileName)) =
      (if env.LoadLibrary fileName = 0 then 0 else 1) := by
  unfold exploreTrace runTrace
  rw [BoostTestExplore_eq, BoostTestRun_eq]
  have h1 := entryPoint_shape env fileName errorReporter _
    (traverse_test_tree_body env
      ⟨testCaseVisitor, beginTestSuiteVisitor, endTestSuiteVisitor, none⟩
      env.master_test_suite)
  have h2 := entryPoint_free env fileName errorReporter _
    (traverse_test_tree_body env
      ⟨testCaseVisitor, beginTestSuiteVisitor, endTestSuiteVisitor, none⟩
      env.master_test_suite)
  have h3 := entryPoint_shape env fileName errorReporter _
    (runBody_sat env
      ⟨testCaseVisitor, beginTestSuiteVisitor, endTestSuiteVisitor, shouldSkipVisitor⟩
      ⟨testStart, testFinish, testAborted, testUnitStart, testUnitFinish,
        testUnitSkipped, testUnitAborted, assertionResult, exceptionCaught, errorReporter⟩)
  have h4 := entryPoint_free env fileName errorReporter _
    (runBody_sat env
      ⟨testCaseVisitor, beginTestSuiteVisitor, endTestSuiteVisitor, shouldSkipVisitor⟩
      ⟨testStart, testFinish, testAborted, testUnitStart, testUnitFinish,
        testUnitSkipped, testUnitAborted, assertionResult, exceptionCaught, errorReporter⟩)
  exact ⟨h1.1, h2.1, h2.2, h3.1, h4.1, h4.2⟩

/-- C7: when the module loads but lacks `init_unit_test`, `FindInitFunc`
returns no function and resets the handle to null, and both entry points
return after `LoadLibrary` and `FreeLibrary` alone: no callback, no error
report and no framework initialisation. -/
theorem missing_entry_symbol_is_silent
    (hload : env.LoadLibrary fileName ≠ 0)
    (hsym : env.GetProcAddress (env.LoadLibrary fileName) initFuncName = 0) :
    (FindInitFunc env fileName errorReporter World.initial).1 = .ok 0 ∧
    (FindInitFunc env fileName errorReporter World.initial).2.h = 0 ∧
    (BoostTestExplore env fileName testCaseVisitor beginTestSuiteVisitor endTestSuiteVisitor
        errorReporter World.initial).1 = .ok () ∧
    exploreTrace env fileName testCaseVisitor beginTestSuiteVisitor endTestSuiteVisitor
        errorReporter =
      [.LoadLibrary fileName (env.LoadLibrary fileName),
        .FreeLibrary (env.LoadLibrary fileName)] ∧
    (BoostTestRun env fileName testCaseVisitor beginTestSuiteVisitor endTestSuiteVisitor
        shouldSkipVisitor testStart testFinish testAborted testUnitStart testUnitFinish
        testUnitSkipped testUnitAborted assertionResult exceptionCaught errorReporter
        World.initial).1 = .ok () ∧
    runTrace env fileName testCaseVisitor beginTestSuiteVisitor endTestSuiteVisitor
        shouldSkipVisitor testStart testFinish testAborted testUnitStart testUnitFinish
        testUnitSkipped testUnitAborted assertionResult exceptionCaught errorReporter =
      [.LoadLibrary fileName (env.LoadLibrary fileName),
        .FreeLibrary (env.LoadLibrary fileName)] := by
  unfold exploreTrace runTrace
  rw [BoostTestExplore_eq, BoostTestRun_eq,
    entryPoint_no_symbol env fileName errorReporter _ hload hsym,
    entryPoint_no_symbol env fileName errorReporter _ hload hsym]
  refine ⟨?_, ?_, rfl, rfl, rfl, rfl⟩ <;>
    simp [FindInitFunc, bind_apply, LoadLibrary, setH, hload, hsym, FreeLibrary, emit_apply,
      pure_apply]

/-- Witness of C7 on a module without the entry symbol. -/
theorem missing_entry_symbol_is_silent_witness :
    exploreTrace sampleEnvNoSymbol "plain.dll" always always always always =
      [.LoadLibrary "plain.dll" 7, .FreeLibrary 7] ∧
    runTrace sampleEnvNoSymbol "plain.dll" always always always (some always) always always
        always always always always always always always always =
      [.LoadLibrary "plain.dll" 7, .FreeLibrary 7] :=
  have h := missing_entry_symbol_is_silent sampleEnvNoSymbol "plain.dll" always always always
    (some always) always always always always always always always always always always
    (by decide) (by decide)
  ⟨h.2.2.2.1, h.2.2.2.2.2⟩

/-- C8: when the OS load fails, both entry points invoke the error reporter
exactly once, with the text "Failed to load DLL ", the path, ": " and the OS
error text, and invoke nothing else. -/
theorem load_failure_is_reported_once (hload : env.LoadLibrary fileName = 0) :
    exploreTrace env fileName testCaseVisitor beginTestSuiteVisitor endTestSuiteVisitor
        errorReporter =
      [.LoadLibrary fileName 0,
        .call (.errorReporter ("Failed to load DLL " ++ fileName ++ ": " ++ GetErrorString env))
          (errorReporter [.LoadLibrary fileName 0]
            ("Failed to load DLL " ++ fileName ++ ": " ++ GetErrorString env))] ∧
    runTrace env fileName testCaseVisitor beginTestSuiteVisitor endTestSuiteVisitor
        shouldSkipVisitor testStart testFinish testAborted testUnitStart testUnitFinish
        testUnitSkipped testUnitAborted assertionResult exceptionCaught errorReporter =
      [.LoadLibrary fileName 0,
        .call (.errorReporter ("Failed to load DLL " ++ fileName ++ ": " ++ GetErrorString env))
          (errorReporter [.LoadLibrary fileName 0]
            ("Failed to load DLL " ++ fileName ++ ": " ++ GetErrorString env))] := by
  unfold exploreTrace runTrace
  rw [BoostTestExplore_eq, BoostTestRun_eq,
    entryPoint_load_failure env fileName errorReporter _ hload,
    entryPoint_load_failure env fileName errorReporter _ hload]
  exact ⟨rfl, rfl⟩

/-- Witness of C8 on a path that does not load. -/
theorem load_failure_is_reported_once_witness :
    exploreTrace sampleEnvNoLoad "missing.dll" always always always always =
      [.LoadLibrary "missing.dll" 0,
        .call (.errorReporter
          "Failed to load DLL missing.dll: The specified module could not be found.") true] :=
  (load_failure_is_reported_once sampleEnvNoLoad "missing.dll" always always always
    (some always) always always always always always always always always always always
    (by decide)).1.trans (by decide)

theorem split_tail {α : Type} (p : α → Bool) (A B pre : List α) (e : α) (post : List α)
    (hA : ∀ a ∈ A, p a = false) (h : A ++ B = pre ++ e :: post) (he : p e = true) :
    ∃ mid, pre = A ++ mid ∧ B = mid ++ e :: post := by
  rcases List.append_eq_append_iff.1 h with ⟨a1, h1, h2⟩ | ⟨c1, h1, h2⟩
  · exact ⟨a1, h1, h2⟩
  · cases c1 with
    | nil =>
      refine ⟨[], ?_, ?_⟩
      · simpa using h1.symm
      · simpa using h2.symm
    | cons c cs =>
      simp only [List.cons_append, List.cons.injEq] at h2
      have hmem : e ∈ A := by
        rw [h1, h2.1]
        simp
      rw [hA e hmem] at he
      exact absurd he (by simp)

theorem closing_quiet (env : Env) (errorReporter : ErrorReporter) (h : HMODULE)
    (r : Option Exc) (t : List Event) :
    ∀ e ∈ closing env errorReporter h r t,
      e.isCancel = false ∧ e.isDiscoveryCall = false ∧ e.isRunCall = false ∧
        e ≠ .register_observer ∧ e ≠ .framework_run := by
  unfold closing
  split
  · simp [Event.isCancel, Event.isDiscoveryCall, Event.isRunCall, Call.isWalkCallback,
      Call.isDiscovery, Call.isRun]
  · split <;>
      simp [Event.isCancel, Event.isDiscoveryCall, Event.isRunCall, Call.isWalkCallback,
        Call.isDiscovery, Call.isRun]

theorem closing_after_cancel (env : Env) (errorReporter : ErrorReporter) (h : HMODULE)
    (t : List Event) :
    (env.clear t = none →
      ∀ e ∈ closing env errorReporter h (some .execution_cancelled) t,
        e.isErrorReport = false) ∧
    (env.clear t ≠ none →
      (closing env errorReporter h (some .execution_cancelled) t).countP
        Event.isErrorReport = 1) := by
  unfold closing
  cases hc : env.clear t <;> simp [Event.isErrorReport]

theorem bodyGood_facts (e : Event) (h : e.bodyGood = true) :
    e.isCancel = false ∧ e.isErrorReport = false := by
  cases e with
  | call c r =>
    cases c <;> cases r <;>
      simp_all [Event.bodyGood, Event.walkGood, Event.runGood, Event.isCancel,
        Event.isErrorReport, Call.isWalkCallback, Call.isDiscovery, Call.isRun]
  | _ => simp_all [Event.bodyGood, Event.walkGood, Event.runGood, Event.isCancel,
      Event.isErrorReport]

theorem bodyStop_facts (e : Event) (h : e.bodyStop = true) : e.isErrorReport = false := by
  cases e with
  | call c r =>
    cases c <;> cases r <;>
      simp_all [Event.bodyStop, Event.isCancel, Event.runStop,
        Event.isErrorReport, Call.isWalkCallback, Call.isRun]
  | _ => simp_all [Event.bodyStop, Event.isCancel, Event.runStop, Event.isErrorReport]

theorem mem_of_split {α : Type} {t pre post : List α} {e : α} (h : t = pre ++ e :: post) :
    e ∈ t := by
  rw [h]
  simp

theorem cancelEndsDiscovery_of_no_cancel (env : Env) (t : List Event)
    (hno : ∀ a ∈ t, a.isCancel = false) : CancelEndsDiscovery env t := by
  intro pre e post hT he
  rw [hno e (mem_of_split hT)] at he
  exact absurd he (by simp)

theorem cancelEndsDiscovery_of_shape (env : Env) (errorReporter : ErrorReporter) (h : HMODULE)
    (P evs : List Event) (r : Option Exc)
    (hP : ∀ a ∈ P, a.isCancel = false ∧ a.isErrorReport = false)
    (h3 : Outcome Event.bodyGood Event.bodyStop r evs) :
    CancelEndsDiscovery env (P ++ evs ++ closing env errorReporter h r (P ++ evs)) := by
  have hq := closing_quiet env errorReporter h r (P ++ evs)
  have hgoodcase : (∀ a ∈ evs, a.bodyGood = true) →
      CancelEndsDiscovery env (P ++ evs ++ closing env errorReporter h r (P ++ evs)) := by
    intro hg
    refine cancelEndsDiscovery_of_no_cancel env _ ?_
    intro a ha
    rcases List.mem_append.1 ha with h | h
    · rcases List.mem_append.1 h with h | h
      · exact (hP a h).1
      · exact (bodyGood_facts a (hg a h)).1
    · exact (hq a h).1
  rcases r with _ | x
  · exact hgoodcase h3
  · cases x with
    | framework y => exact hgoodcase h3
    | execution_cancelled =>
      obtain ⟨pre0, last, e1, e2, e3⟩ := h3
      subst e1
      intro pre e post hT he
      have hT2 : (P ++ pre0) ++ (last :: closing env errorReporter h
          (some .execution_cancelled) (P ++ (pre0 ++ [last]))) = pre ++ e :: post := by
        rw [← hT]
        simp
      have hA : ∀ a ∈ P ++ pre0, a.isCancel = false ∧ a.isErrorReport = false := by
        intro a ha
        rcases List.mem_append.1 ha with h | h
        · exact hP a h
        · exact bodyGood_facts a (e2 a h)
      obtain ⟨mid, hm1, hm2⟩ := split_tail Event.isCancel _ _ pre e post
        (fun a ha => (hA a ha).1) hT2 he
      cases mid with
      | cons m ms =>
        simp only [List.cons_append, List.cons.injEq] at hm2
        have hmem : e ∈ closing env errorReporter h (some .execution_cancelled)
            (P ++ (pre0 ++ [last])) := mem_of_split hm2.2
        rw [(hq e hmem).1] at he
        exact absurd he (by simp)
      | nil =>
        simp only [List.nil_append, List.cons.injEq] at hm2
        simp only [List.append_nil] at hm1
        obtain ⟨hm3, hm4⟩ := hm2
        have hpre : pre ++ [e] = P ++ (pre0 ++ [last]) := by
          rw [hm1, ← hm3]
          simp
        have hc := closing_after_cancel env errorReporter h (P ++ (pre0 ++ [last]))
        rw [hpre, ← hm4]
        refine ⟨fun a ha => (hq a ha).2.1, ?_, hc.1, hc.2⟩
        intro a ha
        rw [hm1] at ha
        exact (hA a ha).2

theorem entryPoint_cancel (env : Env) (fileName : String) (errorReporter : ErrorReporter)
    (body : M Unit) (hbody : Sat Event.bodyGood Event.bodyStop body) :
    CancelEndsDiscovery env
      (entryPoint env fileName errorReporter body World.initial).2.trace := by
  obtain ⟨-, h | h | h⟩ := entryPoint_shape env fileName errorReporter body hbody
  · obtain ⟨-, h2⟩ := h
    rw [h2]
    exact cancelEndsDiscovery_of_no_cancel env _
      (by simp [Event.isCancel, Call.isWalkCallback])
  · obtain ⟨-, -, h2⟩ := h
    rw [h2]
    exact cancelEndsDiscovery_of_no_cancel env _ (by simp [Event.isCancel])
  · obtain ⟨-, -, evs, r, h3, h2⟩ := h
    rw [h2]
    exact cancelEndsDiscovery_of_shape env errorReporter _ _ evs r
      (by simp [Event.isCancel, Event.isErrorReport]) h3

/-- C2, as amended: in both entry points, once a discovery callback
(visit-case, enter-suite or exit-suite) has returned false, no discovery
callback is invoked after it and the error reporter was not invoked before
it; the error reporter is not invoked after it when the `framework::clear()`
that follows succeeds, and is invoked exactly once when that `clear`
throws. -/
theorem cancel_ends_discovery :
    CancelEndsDiscovery env
      (exploreTrace env fileName testCaseVisitor beginTestSuiteVisitor endTestSuiteVisitor
        errorReporter) ∧
    CancelEndsDiscovery env
      (runTrace env fileName testCaseVisitor beginTestSuiteVisitor endTestSuiteVisitor
        shouldSkipVisitor testStart testFinish testAborted testUnitStart testUnitFinish
        testUnitSkipped testUnitAborted assertionResult exceptionCaught errorReporter) := by
  unfold exploreTrace runTrace
  rw [BoostTestExplore_eq, BoostTestRun_eq]
  exact ⟨entryPoint_cancel env fileName errorReporter _ (traverse_test_tree_body env _ _),
    entryPoint_cancel env fileName errorReporter _ (runBody_sat env _ _)⟩

/-- Witness of C2: in a run of the sample module whose exit-suite callback
returns false, the call ends with `clear` and `FreeLibrary` alone. -/
theorem cancel_ends_discovery_witness :
    runTrace sampleEnv "tests.dll" always always never (some never) always always always
        always always always always always always always =
      [.LoadLibrary "tests.dll" 7, .framework_init 9,
        .call (.beginTestSuiteVisitor "master") true,
        .call (.shouldSkipVisitor "master") false,
        .call (.testCaseVisitor "a") true, .call (.shouldSkipVisitor "a") false,
        .call (.beginTestSuiteVisitor "s") true, .call (.shouldSkipVisitor "s") false,
        .call (.testCaseVisitor "b") true, .call (.shouldSkipVisitor "b") false] ++
      .call (.endTestSuiteVisitor "s") false :: [.framework_clear, .FreeLibrary 7] ∧
    (∀ e2 ∈ [Event.framework_clear, .FreeLibrary 7], e2.isDiscoveryCall = false) ∧
    (∀ e2 ∈ [Event.framework_clear, .FreeLibrary 7], e2.isErrorReport = false) :=
  have h := (cancel_ends_discovery sampleEnv "tests.dll" always always never (some never)
    always always always always always always always always always always).2
    [.LoadLibrary "tests.dll" 7, .framework_init 9,
      .call (.beginTestSuiteVisitor "master") true,
      .call (.shouldSkipVisitor "master") false,
      .call (.testCaseVisitor "a") true, .call (.shouldSkipVisitor "a") false,
      .call (.beginTestSuiteVisitor "s") true, .call (.shouldSkipVisitor "s") false,
      .call (.testCaseVisitor "b") true, .call (.shouldSkipVisitor "b") false]
    (.call (.endTestSuiteVisitor "s") false) [.framework_clear, .FreeLibrary 7]
    (by decide) (by decide)
  ⟨by decide, h.1, h.2.2.1 rfl⟩

/-- C2 as stated fails: the enter-suite callback returns false, the walk is
abandoned, the `framework::clear()` of the normal path throws, and the error
reporter is invoked. -/
theorem cancel_then_clear_failure_is_reported :
    exploreTrace sampleEnvClearFails "tests.dll" always never always always =
      [.LoadLibrary "tests.dll" 7, .framework_init 9,
        .call (.beginTestSuiteVisitor "master") false, .framework_clear,
        .call (.errorReporter "Boost.Test error: clear failed") true,
        .framework_clear, .FreeLibrary 7] ∧
    ¬ CancelEndsCallSilently
      (exploreTrace sampleEnvClearFails "tests.dll" always never always always) := by
  refine ⟨by decide, fun h => ?_⟩
  have h1 := (h [.LoadLibrary "tests.dll" 7, .framework_init 9]
    (.call (.beginTestSuiteVisitor "master") false)
    [.framework_clear, .call (.errorReporter "Boost.Test error: clear failed") true,
      .framework_clear, .FreeLibrary 7] (by decide) (by decide)).2
    (.call (.errorReporter "Boost.Test error: clear failed") true) (by decide)
  exact absurd h1 (by decide)

theorem pairwise_split {α : Type} {R : α → α → Prop} {l pre post : List α} {e : α}
    (h : l.Pairwise R) (hs : l = pre ++ e :: post) : ∀ b ∈ post, R e b := by
  subst hs
  exact (List.pairwise_cons.1 (List.pairwise_append.1 h).2.1).1

theorem pairwise_of_never {α : Type} (p : α → Bool) (q : α → Prop) (l : List α)
    (h : ∀ a ∈ l, p a = false) : l.Pairwise (fun a b => p a = true → q b) := by
  induction l with
  | nil => exact List.Pairwise.nil
  | cons x xs ih =>
    refine List.pairwise_cons.2 ⟨?_, ih (fun a ha => h a (List.mem_cons_of_mem _ ha))⟩
    intro b _ hx
    rw [h x (List.mem_cons_self _ _)] at hx
    exact absurd hx (by simp)

theorem closing_error_last (env : Env) (errorReporter : ErrorReporter) (h : HMODULE)
    (r : Option Exc) (t : List Event) :
    (closing env errorReporter h r t).countP Event.isErrorReport ≤ 1 ∧
    (closing env errorReporter h r t).Pairwise
      (fun a b => a.isErrorReport = true → b.toCall = none) := by
  unfold closing
  split
  · simp [Event.isErrorReport, Event.toCall]
  · split <;> simp [Event.isErrorReport, Event.toCall]

theorem errorReportIsLast_of_shape (env : Env) (errorReporter : ErrorReporter) (h : HMODULE)
    (P evs : List Event) (r : Option Exc) (t : List Event)
    (hP : ∀ a ∈ P, a.isErrorReport = false)
    (h3 : Outcome Event.bodyGood Event.bodyStop r evs) :
    ErrorReportIsLast (P ++ evs ++ closing env errorReporter h r t) := by
  have hev : ∀ a ∈ P ++ evs, a.isErrorReport = false := by
    intro a ha
    rcases List.mem_append.1 ha with h | h
    · exact hP a h
    · exact h3.all (fun e => e.isErrorReport = false) (fun e he => (bodyGood_facts e he).2)
        bodyStop_facts a h
  obtain ⟨c1, c2⟩ := closing_error_last env errorReporter h r t
  constructor
  · have h0 : (P ++ evs).countP Event.isErrorReport = 0 := by
      rw [List.countP_eq_zero]
      intro a ha
      simp [hev a ha]
    rw [List.countP_append, h0]
    simpa using c1
  · intro pre e post hs he
    intro b hb
    refine pairwise_split (R := fun a b => a.isErrorReport = true → b.toCall = none) ?_ hs
      b hb he
    refine List.pairwise_append.2 ⟨pairwise_of_never _ _ _ hev, c2, ?_⟩
    intro a ha b _ hx
    rw [hev a ha] at hx
    exact absurd hx (by simp)

theorem entryPoint_error_last (env : Env) (fileName : String) (errorReporter : ErrorReporter)
    (body : M Unit) (hbody : Sat Event.bodyGood Event.bodyStop body) :
    ErrorReportIsLast (entryPoint env fileName errorReporter body World.initial).2.trace ∧
    (env.LoadLibrary fileName = 0 ∨
        env.init (env.GetProcAddress (env.LoadLibrary fileName) initFuncName) ≠ none →
      NoCallbacks (entryPoint env fileName errorReporter body World.initial).2.trace) := by
  by_cases hload : env.LoadLibrary fileName = 0
  · rw [entryPoint_load_failure env fileName errorReporter body hload]
    refine ⟨⟨by simp [Event.isErrorReport], ?_⟩, fun _ => ?_⟩
    · intro pre e post hs he
      intro b hb
      refine pairwise_split (R := fun a b => a.isErrorReport = true → b.toCall = none) ?_ hs
        b hb he
      simp [Event.isErrorReport]
    · simp [NoCallbacks, Event.isDiscoveryCall, Event.isRunCall, Call.isDiscovery, Call.isRun]
  · by_cases hsym : env.GetProcAddress (env.LoadLibrary fileName) initFuncName = 0
    · rw [entryPoint_no_symbol env fileName errorReporter body hload hsym]
      refine ⟨⟨by simp [Event.isErrorReport], ?_⟩, fun _ => ?_⟩
      · intro pre e post hs he
        intro b hb
        refine pairwise_split (R := fun a b => a.isErrorReport = true → b.toCall = none) ?_ hs
          b hb he
        simp [Event.isErrorReport]
      · simp [NoCallbacks, Event.isDiscoveryCall, Event.isRunCall]
    · constructor
      · obtain ⟨-, h | h | h⟩ := entryPoint_shape env fileName errorReporter body hbody
        · exact absurd h.1 hload
        · exact absurd h.2.1 hsym
        · obtain ⟨-, -, evs, r, h3, h2⟩ := h
          rw [h2]
          exact errorReportIsLast_of_shape env errorReporter _ _ evs r _
            (by simp [Event.isErrorReport]) h3
      · intro hor
        rcases hor with h | h
        · exact absurd h hload
        · cases hinit : env.init (env.GetProcAddress (env.LoadLibrary fileName) initFuncName) with
          | none => exact absurd hinit h
          | some x =>
            rw [entryPoint_init_failure env fileName errorReporter body x hload hsym hinit]
            intro e he
            simp only [List.mem_append, List.mem_cons, List.mem_singleton, List.not_mem_nil,
              or_false] at he
            rcases he with (rfl | rfl) | he
            · simp [Event.isDiscoveryCall, Event.isRunCall]
            · simp [Event.isDiscoveryCall, Event.isRunCall]
            · have := closing_quiet env errorReporter _ _ _ e he
              exact ⟨this.2.1, this.2.2.1⟩

/-- C5, as amended: in every call of either entry point the error reporter is
invoked at most once and no host callback is invoked after it; when the
failure is a load failure or a failure of `framework::init`, no discovery or
run callback is invoked in the call. -/
theorem error_report_is_last :
    ErrorReportIsLast
      (exploreTrace env fileName testCaseVisitor beginTestSuiteVisitor endTestSuiteVisitor
        errorReporter) ∧
    ErrorReportIsLast
      (runTrace env fileName testCaseVisitor beginTestSuiteVisitor endTestSuiteVisitor
        shouldSkipVisitor testStart testFinish testAborted testUnitStart testUnitFinish
        testUnitSkipped testUnitAborted assertionResult exceptionCaught errorReporter) ∧
    (env.LoadLibrary fileName = 0 ∨
        env.init (env.GetProcAddress (env.LoadLibrary fileName) initFuncName) ≠ none →
      NoCallbacks
        (exploreTrace env fileName testCaseVisitor beginTestSuiteVisitor endTestSuiteVisitor
          errorReporter) ∧
      NoCallbacks
        (runTrace env fileName testCaseVisitor beginTestSuiteVisitor endTestSuiteVisitor
          shouldSkipVisitor testStart testFinish testAborted testUnitStart testUnitFinish
          testUnitSkipped testUnitAborted assertionResult exceptionCaught errorReporter)) := by
  unfold exploreTrace runTrace
  rw [BoostTestExplore_eq, BoostTestRun_eq]
  have h1 := entryPoint_error_last env fileName errorReporter _
    (traverse_test_tree_body env
      ⟨testCaseVisitor, beginTestSuiteVisitor, endTestSuiteVisitor, none⟩
      env.master_test_suite)
  have h2 := entryPoint_error_last env fileName errorReporter _
    (runBody_sat env
      ⟨testCaseVisitor, beginTestSuiteVisitor, endTestSuiteVisitor, shouldSkipVisitor⟩
      ⟨testStart, testFinish, testAborted, testUnitStart, testUnitFinish,
        testUnitSkipped, testUnitAborted, assertionResult, exceptionCaught, errorReporter⟩)
  exact ⟨h1.1, h2.1, fun h => ⟨h1.2 h, h2.2 h⟩⟩

/-- Witness of C5: a `framework::init` that throws an exception with an empty
description is reported with the placeholder text, and nothing else is
invoked. -/
theorem error_report_is_last_witness :
    runTrace sampleEnvInitFails "tests.dll" always always always (some always) always always
        always always always always always always always always =
      [.LoadLibrary "tests.dll" 7, .framework_init 9,
        .call (.errorReporter "Boost.Test error: empty error string") true,
        .framework_clear, .FreeLibrary 7] ∧
    NoCallbacks
      (runTrace sampleEnvInitFails "tests.dll" always always always (some always) always
        always always always always always always always always always) :=
  ⟨by decide,
    ((error_report_is_last sampleEnvInitFails "tests.dll" always always always (some always)
      always always always always always always always always always always).2.2
      (Or.inr (by decide))).2⟩

/-- C5 as stated fails: the walk of an empty master suite invokes enter-suite
and exit-suite, then `framework::run()` throws and the error reporter is
invoked in the same call. -/
theorem callbacks_then_error_report :
    runTrace sampleEnvRunFails "tests.dll" always always always none always always always
        always always always always always always always =
      [.LoadLibrary "tests.dll" 7, .framework_init 9,
        .call (.beginTestSuiteVisitor "master") true,
        .call (.endTestSuiteVisitor "master") true,
        .register_observer, .framework_run,
        .call (.errorReporter "Boost.Test error: test tree is empty") true,
        .framework_clear, .FreeLibrary 7] ∧
    ¬ ErrorReportExcludesCallbacks
      (runTrace sampleEnvRunFails "tests.dll" always always always none always always always
        always always always always always always always) := by
  have ht : runTrace sampleEnvRunFails "tests.dll" always always always none always always
      always always always always always always always always =
      [.LoadLibrary "tests.dll" 7, .framework_init 9,
        .call (.beginTestSuiteVisitor "master") true,
        .call (.endTestSuiteVisitor "master") true,
        .register_observer, .framework_run,
        .call (.errorReporter "Boost.Test error: test tree is empty") true,
        .framework_clear, .FreeLibrary 7] := by decide
  refine ⟨ht, fun h => ?_⟩
  rw [ht] at h
  have h1 := (h ⟨.call (.errorReporter "Boost.Test error: test tree is empty") true,
    by decide, by decide⟩).2 (.call (.beginTestSuiteVisitor "master") true) (by decide)
  exact absurd h1.1 (by decide)

theorem closing_clear_split (env : Env) (errorReporter : ErrorReporter) (h : HMODULE)
    (r : Option Exc) (t mid post : List Event)
    (hs : closing env errorReporter h r t = mid ++ .framework_clear :: post)
    (hfail : env.clear (t ++ mid) ≠ none) :
    (mid = [] ∧ post.countP Event.isErrorReport = 1) ∨
    ((∃ e ∈ mid, e.isErrorReport = true) ∧ ∀ e2 ∈ post, e2.isErrorReport = false) := by
  unfold closing at hs
  split at hs
  · rcases mid with _ | ⟨m1, _ | ⟨m2, mid⟩⟩
    · simp at hs
    · simp only [List.cons_append, List.nil_append, List.cons.injEq] at hs
      obtain ⟨rfl, -, rfl⟩ := hs
      exact Or.inr ⟨⟨_, List.mem_singleton.2 rfl, rfl⟩, by simp [Event.isErrorReport]⟩
    · simp only [List.cons_append, List.cons.injEq] at hs
      obtain ⟨-, -, hs⟩ := hs
      rcases mid with _ | ⟨m3, mid⟩ <;> simp at hs
  · split at hs
    · rename_i hc
      rcases mid with _ | ⟨m1, mid⟩
      · rw [List.append_nil] at hfail
        exact absurd hc hfail
      · simp only [List.cons_append, List.cons.injEq] at hs
        obtain ⟨-, hs⟩ := hs
        rcases mid with _ | ⟨m2, mid⟩
        · simp at hs
        · simp only [List.cons_append, List.cons.injEq] at hs
          obtain ⟨-, hs⟩ := hs
          exact absurd hs (by simp)
    · rcases mid with _ | ⟨m1, mid⟩
      · simp only [List.nil_append, List.cons.injEq, true_and] at hs
        subst hs
        exact Or.inl ⟨rfl, by simp [Event.isErrorReport]⟩
      · simp only [List.cons_append, List.cons.injEq] at hs
        obtain ⟨rfl, hs⟩ := hs
        rcases mid with _ | ⟨m2, mid⟩
        · simp at hs
        · simp only [List.cons_append, List.cons.injEq] at hs
          obtain ⟨rfl, hs⟩ := hs
          rcases mid with _ | ⟨m3, mid⟩
          · simp only [List.nil_append, List.cons.injEq, true_and] at hs
            subst hs
            exact Or.inr ⟨⟨_, List.mem_cons_of_mem _ (List.mem_singleton.2 rfl), rfl⟩,
              by simp [Event.isErrorReport]⟩
          · simp only [List.cons_append, List.cons.injEq] at hs
            obtain ⟨-, hs⟩ := hs
            rcases mid with _ | ⟨m4, mid⟩
            · simp at hs
            · simp only [List.cons_append, List.cons.injEq] at hs
              obtain ⟨-, hs⟩ := hs
              exact absurd hs (by simp)

theorem bodyGood_not_clear (e : Event) (h : e.bodyGood = true) : e.isClear = false := by
  cases e <;> simp_all [Event.bodyGood, Event.walkGood, Event.runGood, Event.isClear]

theorem bodyStop_not_clear (e : Event) (h : e.bodyStop = true) : e.isClear = false := by
  cases e <;> simp_all [Event.bodyStop, Event.isCancel, Event.runStop, Event.isClear]

theorem clearFailureHandled_of_no_clear (env : Env) (t : List Event)
    (hno : ∀ a ∈ t, a.isClear = false) : ClearFailureHandled env t := by
  intro pre post hT _
  have := hno _ (mem_of_split hT)
  simp [Event.isClear] at this

theorem clearFailureHandled_of_shape (env : Env) (errorReporter : ErrorReporter) (h : HMODULE)
    (P evs : List Event) (r : Option Exc)
    (hP : ∀ a ∈ P, a.isClear = false ∧ a.isErrorReport = false)
    (h3 : Outcome Event.bodyGood Event.bodyStop r evs) :
    ClearFailureHandled env (P ++ evs ++ closing env errorReporter h r (P ++ evs)) := by
  have hA : ∀ a ∈ P ++ evs, a.isClear = false ∧ a.isErrorReport = false := by
    intro a ha
    rcases List.mem_append.1 ha with h | h
    · exact hP a h
    · exact ⟨h3.all (fun e => e.isClear = false) bodyGood_not_clear bodyStop_not_clear a h,
        h3.all (fun e => e.isErrorReport = false) (fun e he => (bodyGood_facts e he).2)
          bodyStop_facts a h⟩
  intro pre post hT hfail
  obtain ⟨mid, hm1, hm2⟩ := split_tail Event.isClear _ _ pre .framework_clear post
    (fun a ha => (hA a ha).1) hT rfl
  rw [hm1] at hfail
  rcases closing_clear_split env errorReporter h r _ mid post hm2 hfail with ⟨h1, h2⟩ | ⟨h1, h2⟩
  · refine ⟨?_, fun _ => h2⟩
    rintro ⟨e, he1, he2⟩
    rw [hm1, h1, List.append_nil] at he1
    rw [(hA e he1).2] at he2
    exact absurd he2 (by simp)
  · refine ⟨fun _ => h2, ?_⟩
    intro hall
    obtain ⟨e, he1, he2⟩ := h1
    rw [hall e (by rw [hm1]; exact List.mem_append_right _ he1)] at he2
    exact absurd he2 (by simp)

theorem entryPoint_clear_failure (env : Env) (fileName : String)
    (errorReporter : ErrorReporter) (body : M Unit)
    (hbody : Sat Event.bodyGood Event.bodyStop body) :
    ClearFailureHandled env
      (entryPoint env fileName errorReporter body World.initial).2.trace := by
  obtain ⟨-, h | h | h⟩ := entryPoint_shape env fileName errorReporter body hbody
  · obtain ⟨-, h2⟩ := h
    rw [h2]
    exact clearFailureHandled_of_no_clear env _ (by simp [Event.isClear])
  · obtain ⟨-, -, h2⟩ := h
    rw [h2]
    exact clearFailureHandled_of_no_clear env _ (by simp [Event.isClear])
  · obtain ⟨-, -, evs, r, h3, h2⟩ := h
    rw [h2]
    exact clearFailureHandled_of_shape env errorReporter _ _ evs r
      (by simp [Event.isClear, Event.isErrorReport]) h3

/-- C6, as amended: a failure of `framework::clear()` never escapes an entry
point; `CleanUp` always returns normally, invokes no callback and releases a
non-null handle.  In the log of either entry point, a `clear` that throws
after the error report (the one inside `CleanUp`, on the error paths) is
followed by no error report, and a `clear` that throws before any error
report (the one of the normal-completion and cancellation paths) is followed
by exactly one. -/
theorem clear_failure_is_handled :
    (BoostTestExplore env fileName testCaseVisitor beginTestSuiteVisitor endTestSuiteVisitor
        errorReporter World.initial).1 = .ok () ∧
    (BoostTestRun env fileName testCaseVisitor beginTestSuiteVisitor endTestSuiteVisitor
        shouldSkipVisitor testStart testFinish testAborted testUnitStart testUnitFinish
        testUnitSkipped testUnitAborted assertionResult exceptionCaught errorReporter
        World.initial).1 = .ok () ∧
    ClearFailureHandled env
      (exploreTrace env fileName testCaseVisitor beginTestSuiteVisitor endTestSuiteVisitor
        errorReporter) ∧
    ClearFailureHandled env
      (runTrace env fileName testCaseVisitor beginTestSuiteVisitor endTestSuiteVisitor
        shouldSkipVisitor testStart testFinish testAborted testUnitStart testUnitFinish
        testUnitSkipped testUnitAborted assertionResult exceptionCaught errorReporter) ∧
    (∀ (h : HMODULE) (w : World), (CleanUp env h w).1 = .ok () ∧
      (CleanUp env h w).2.trace =
        w.trace ++ (.framework_clear :: if h = 0 then [] else [.FreeLibrary h])) := by
  unfold exploreTrace runTrace
  rw [BoostTestExplore_eq, BoostTestRun_eq]
  refine ⟨(entryPoint_shape env fileName errorReporter _ (traverse_test_tree_body env _ _)).1,
    (entryPoint_shape env fileName errorReporter _ (runBody_sat env _ _)).1,
    entryPoint_clear_failure env fileName errorReporter _ (traverse_test_tree_body env _ _),
    entryPoint_clear_failure env fileName errorReporter _ (runBody_sat env _ _), ?_⟩
  intro h w
  rw [CleanUp_apply]
  exact ⟨rfl, rfl⟩

/-- Witness of C6: the walk is cancelled, the `clear` of the normal path
throws, and exactly one error report follows it. -/
theorem clear_failure_is_handled_witness :
    runTrace sampleEnvClearFails "tests.dll" never always always none always always always
        always always always always always always always =
      [.LoadLibrary "tests.dll" 7, .framework_init 9,
        .call (.beginTestSuiteVisitor "master") true, .call (.testCaseVisitor "a") false] ++
      .framework_clear ::
        [.call (.errorReporter "Boost.Test error: clear failed") true, .framework_clear,
          .FreeLibrary 7] ∧
    List.countP Event.isErrorReport
      [.call (.errorReporter "Boost.Test error: clear failed") true, .framework_clear,
        .FreeLibrary 7] = 1 :=
  ⟨by decide,
    ((clear_failure_is_handled sampleEnvClearFails "tests.dll" never always always none
      always always always always always always always always always always).2.2.2.1
      [.LoadLibrary "tests.dll" 7, .framework_init 9,
        .call (.beginTestSuiteVisitor "master") true, .call (.testCaseVisitor "a") false]
      [.call (.errorReporter "Boost.Test error: clear failed") true, .framework_clear,
        .FreeLibrary 7]
      (by decide) (by decide)).2 (by decide)⟩

/-- C6 as stated fails: every callback returns true and the walk completes,
the `framework::clear()` of the normal path throws, and the error reporter is
invoked with that failure. -/
theorem clear_failure_on_normal_path_is_reported :
    exploreTrace sampleEnvClearFails "tests.dll" always always always always =
      [.LoadLibrary "tests.dll" 7, .framework_init 9,
        .call (.beginTestSuiteVisitor "master") true, .call (.testCaseVisitor "a") true,
        .call (.beginTestSuiteVisitor "s") true, .call (.testCaseVisitor "b") true,
        .call (.endTestSuiteVisitor "s") true, .call (.testCaseVisitor "c") true,
        .call (.endTestSuiteVisitor "master") true, .framework_clear,
        .call (.errorReporter "Boost.Test error: clear failed") true,
        .framework_clear, .FreeLibrary 7] ∧
    ¬ ClearFailureDiscarded sampleEnvClearFails
      (exploreTrace sampleEnvClearFails "tests.dll" always always always always) := by
  refine ⟨by decide, fun h => ?_⟩
  have h1 := h
    [.LoadLibrary "tests.dll" 7, .framework_init 9,
      .call (.beginTestSuiteVisitor "master") true, .call (.testCaseVisitor "a") true,
      .call (.beginTestSuiteVisitor "s") true, .call (.testCaseVisitor "b") true,
      .call (.endTestSuiteVisitor "s") true, .call (.testCaseVisitor "c") true,
      .call (.endTestSuiteVisitor "master") true]
    [.call (.errorReporter "Boost.Test error: clear failed") true, .framework_clear,
      .FreeLibrary 7]
    (by decide) (by decide)
    (.call (.errorReporter "Boost.Test error: clear failed") true) (by decide)
  exact absurd h1 (by decide)

end Claims

end BoostTestBridge
